import Mathlib

/-!
# Model of the todo_app_hct natural-language task-command pipeline

A shallow embedding, in Lean, of the agent pipeline of the `todo_app_hct`
repository (backend/src): the rule-based classifier
(`agents/rule_based_classifier.py`), the Gemini-backed intent classifier
(`agents/intent_classifier.py`), the task-reference resolver
(`agents/task_resolution.py`), the action executor (`agents/action_agent.py`),
the MCP task tools (`mcp/task_tools.py`), the task service
(`services/task_service.py`), the response formatter
(`agents/response_formatter.py`) and the conversation orchestrator
(`services/chatbot_service.py`).

Modelling conventions:
* Python strings are Lean `String`s; `str.lower`/`str.strip` are `pyLower`/
  `pyStrip` (the relevant inputs are ASCII).
* Python `re` patterns are embedded as token lists for a small backtracking
  matcher (`matchToks`) implementing leftmost search, greedy repetition with
  backtracking and ordered alternation — the semantics of the `re` module on
  the pattern fragments the source uses.
* Timestamps are abstract instants (`Nat`); calendar arithmetic
  (`datetime`/`dateutil`, an external library) is a structure `DateLib` of
  uninterpreted operations that theorems quantify over.
* Database rows live in an explicit `DB` record; SQLModel autoincrement ids
  are `nextTaskId`/`nextConvId`/`nextMsgId` counters.
* Logging calls are dropped; they do not affect data flow.
* Float literals (`0.9`, `0.7`, ...) are the rationals `mkRat 9 10`, ... —
  written with `mkRat` because decimal `Rat` literals do not kernel-reduce.
-/

/-- Python `\s` character class: `[ \t\n\r\f\v]`. -/
def isWs (c : Char) : Bool :=
  c = ' ' || c = '\t' || c = '\n' || c = '\r' || c = '\x0b' || c = '\x0c'

/-- Python `\w` character class on ASCII input: `[A-Za-z0-9_]`. -/
def isWordC (c : Char) : Bool := c.isAlphanum || c = '_'

/-- Python `\d` character class. -/
def isDigitC (c : Char) : Bool := c.isDigit

/-- Python `.` (no DOTALL): any character but newline. -/
def isAnyC (c : Char) : Bool := c ≠ '\n'

/-- Python truthiness of an optional int (`None` and `0` are falsy). -/
def pyTruthyInt : Option Int → Bool
  | none => false
  | some n => n != 0

/-- Python truthiness of an optional string (`None` and `""` are falsy). -/
def pyTruthyStr : Option String → Bool
  | none => false
  | some s => s != ""

/-- Python truthiness of an optional bool (`None` and `False` are falsy). -/
def pyTruthyBool : Option Bool → Bool
  | none => false
  | some b => b

/-- Python truthiness of an optional list (`None` and `[]` are falsy). -/
def pyTruthyList : Option (List String) → Bool
  | none => false
  | some l => !l.isEmpty

/-- Python `s.split(sep, 1)` when `sep` occurs in `s`: the text before and
after the first occurrence.  `none` when `sep` does not occur. -/
def splitOnce (sep : List Char) : List Char → Option (List Char × List Char)
  | [] => if sep.isEmpty then some ([], []) else none
  | c :: cs =>
    if sep.isPrefixOf (c :: cs) then some ([], (c :: cs).drop sep.length)
    else (splitOnce sep cs).map fun p => (c :: p.1, p.2)

/-- Python `x in s` substring test. -/
def pyIn (needle haystack : String) : Bool :=
  (splitOnce needle.toList haystack.toList).isSome

/-- Python `str.isdigit` on ASCII: nonempty and all digits. -/
def pyIsDigit (cs : List Char) : Bool := !cs.isEmpty && cs.all Char.isDigit

/-- Strip the characters of `bad` from both ends (Python `str.strip(chars)`). -/
def stripChars (bad : List Char) (cs : List Char) : List Char :=
  ((cs.dropWhile (bad.contains ·)).reverse.dropWhile (bad.contains ·)).reverse

/-- Strip whitespace from both ends (Python `str.strip()`). -/
def stripWs (cs : List Char) : List Char := stripChars [' ', '\t', '\n', '\r', '\x0b', '\x0c'] cs

/-- Python `str.lower()` on ASCII input. -/
def pyLower (s : String) : String := String.mk (s.toList.map Char.toLower)

/-- Python `str.strip()` as a `String` operation. -/
def pyStrip (s : String) : String := String.mk (stripWs s.toList)

/-- Decimal value of a digit string (Python `int` on a `\d+` capture). -/
def digitsToNat (cs : List Char) : Nat :=
  cs.foldl (fun acc c => acc * 10 + (c.toNat - '0'.toNat)) 0

/-!
## A small regex engine

Tokens cover exactly the constructs appearing in the source's patterns:
literals, character-class repetitions (`\d+`, `\s*`, `\s+`, `\d{1,2}`, `[^"]+`,
`\w+`, `.+`), grouped ordered alternation — optional (`(?:x)?`) or required
(`(?:a|b)`) — word boundaries `\b`, and the `^`/`$` anchors.  Capturing groups
in the source are always class repetitions; the `cap` flag records them in
order.  `matchToks` matches a token list at the current position with Python
`re` semantics: alternatives tried left to right, repetitions greedy with
backtracking.  The `fuel` argument strictly decreases on every recursive call
and only bounds recursion depth; `reFuel` is far beyond any depth reached on
the strings involved.
-/

inductive Tok where
  | lit : List Char → Tok
  | cls : (Char → Bool) → Nat → Option Nat → Bool → Tok
  | grp : List (List Tok) → Bool → Tok
  | wb : Tok
  | bos : Tok
  | eos : Tok

def reFuel : Nat := 5000

mutual

def matchToks : Nat → List Tok → List Char → Option Char → List (List Char) →
    Option (List Char × List (List Char))
  | 0, _, _, _, _ => none
  | _ + 1, [], cs, _, caps => some (cs, caps)
  | fuel + 1, .lit s :: rest, cs, prev, caps =>
    if s.isPrefixOf cs then
      matchToks fuel rest (cs.drop s.length)
        (match s.getLast? with | some c => some c | none => prev) caps
    else none
  | fuel + 1, .wb :: rest, cs, prev, caps =>
    let pw := match prev with | some c => isWordC c | none => false
    let nw := match cs with | c :: _ => isWordC c | [] => false
    if pw ≠ nw then matchToks fuel rest cs prev caps else none
  | fuel + 1, .bos :: rest, cs, prev, caps =>
    if prev.isNone then matchToks fuel rest cs prev caps else none
  | fuel + 1, .eos :: rest, cs, prev, caps =>
    if cs.isEmpty then matchToks fuel rest cs prev caps else none
  | fuel + 1, .cls p lo hi cap :: rest, cs, prev, caps =>
    let run := (cs.takeWhile p).length
    let n := match hi with | some h => min h run | none => run
    tryLens fuel rest cs prev caps p lo cap n
  | fuel + 1, .grp gs allowEmpty :: rest, cs, prev, caps =>
    tryAlts fuel rest cs prev caps gs allowEmpty

def tryLens : Nat → List Tok → List Char → Option Char → List (List Char) →
    (Char → Bool) → Nat → Bool → Nat → Option (List Char × List (List Char))
  | 0, _, _, _, _, _, _, _, _ => none
  | fuel + 1, rest, cs, prev, caps, p, lo, cap, n =>
    if n < lo then none
    else
      let consumed := cs.take n
      let caps' := if cap then caps ++ [consumed] else caps
      let prev' := match consumed.getLast? with | some c => some c | none => prev
      match matchToks fuel rest (cs.drop n) prev' caps' with
      | some r => some r
      | none => if n = 0 then none else tryLens fuel rest cs prev caps p lo cap (n - 1)

def tryAlts : Nat → List Tok → List Char → Option Char → List (List Char) →
    List (List Tok) → Bool → Option (List Char × List (List Char))
  | 0, _, _, _, _, _, _ => none
  | fuel + 1, rest, cs, prev, caps, [], allowEmpty =>
    if allowEmpty then matchToks fuel rest cs prev caps else none
  | fuel + 1, rest, cs, prev, caps, g :: gs, allowEmpty =>
    match matchToks fuel (g ++ rest) cs prev caps with
    | some r => some r
    | none => tryAlts fuel rest cs prev caps gs allowEmpty

end

/-- `re.search`: leftmost position where the pattern matches; returns the
capture list and the input remaining after the match. -/
def searchFrom : Nat → List Tok → List Char → Option Char →
    Option (List (List Char) × List Char)
  | 0, _, _, _ => none
  | fuel + 1, pat, cs, prev =>
    match matchToks reFuel pat cs prev [] with
    | some (restCs, caps) => some (caps, restCs)
    | none =>
      match cs with
      | [] => none
      | c :: cs' => searchFrom fuel pat cs' (some c)

/-- `re.search(pat, s)` returning all capture groups in order. -/
def reSearch (pat : List Tok) (cs : List Char) : Option (List (List Char)) :=
  (searchFrom (cs.length + 1) pat cs none).map (·.1)

/-- `re.search(pat, s).group(1)`. -/
def reGroup1 (pat : List Tok) (cs : List Char) : Option (List Char) :=
  match reSearch pat cs with
  | some (g :: _) => some g
  | _ => none

/-- `re.sub(pat, repl, s)`: replace every non-overlapping leftmost match. -/
def subAllFrom : Nat → List Tok → List Char → List Char → Option Char → List Char
  | 0, _, _, cs, _ => cs
  | fuel + 1, pat, repl, cs, prev =>
    match matchToks reFuel pat cs prev [] with
    | some (restCs, _) =>
      let consumedLen := cs.length - restCs.length
      if consumedLen = 0 then
        match cs with
        | [] => repl
        | c :: cs' => repl ++ c :: subAllFrom fuel pat repl cs' (some c)
      else
        let prev' := match (cs.take consumedLen).getLast? with
                     | some c => some c | none => prev
        repl ++ subAllFrom fuel pat repl restCs prev'
    | none =>
      match cs with
      | [] => []
      | c :: cs' => c :: subAllFrom fuel pat repl cs' (some c)

def reSub (pat : List Tok) (repl : List Char) (cs : List Char) : List Char :=
  subAllFrom (cs.length + 1) pat repl cs none

/-- `re.findall(pat, s)` for single-group patterns: the group-1 captures of all
non-overlapping matches, left to right. -/
def findAllFrom : Nat → List Tok → List Char → Option Char → List (List Char)
  | 0, _, _, _ => []
  | fuel + 1, pat, cs, prev =>
    match matchToks reFuel pat cs prev [] with
    | some (restCs, caps) =>
      let g := caps.headD []
      let consumedLen := cs.length - restCs.length
      if consumedLen = 0 then
        match cs with
        | [] => [g]
        | c :: cs' => g :: findAllFrom fuel pat cs' (some c)
      else
        let prev' := match (cs.take consumedLen).getLast? with
                     | some c => some c | none => prev
        g :: findAllFrom fuel pat restCs prev'
    | none =>
      match cs with
      | [] => []
      | c :: cs' => findAllFrom fuel pat cs' (some c)

def reFindall (pat : List Tok) (cs : List Char) : List (List Char) :=
  findAllFrom (cs.length + 1) pat cs none

/-!
## Data model

`Entities` models the classifier's entity dictionary: every slot the code ever
writes is a field, `none` meaning the key is absent.  (The code never stores an
explicit `None` under a present key on the paths modelled here, so the
absent/null conflation is harmless.)  Timestamps are abstract instants `Nat`;
`DateLib` packages the external calendar operations (`datetime`, `timedelta`,
`dateutil.relativedelta`) that the code calls.
-/

structure Entities where
  title : Option String := none
  description : Option String := none
  priority : Option String := none
  due_date : Option String := none
  task_id : Option Int := none
  task_reference : Option String := none
  completed : Option Bool := none
  tags : Option (List String) := none
  filter_completed : Option Bool := none
  batch_delete : Option Bool := none
deriving DecidableEq, Repr

/-- A classifier result: `{"intent": ..., "confidence": ..., "entities": ...}`. -/
structure Classification where
  intent : String
  confidence : Rat
  entities : Entities
deriving DecidableEq, Repr

/-- External calendar/date operations used by the code.  `mkDate`/`fromIso`
return `none` where the Python constructor raises `ValueError`. -/
structure DateLib where
  addDays : Nat → Nat → Nat        -- `d + timedelta(days=k)`
  weekday : Nat → Nat              -- `d.weekday()`
  strftimeYMD : Nat → String       -- `d.strftime('%Y-%m-%d')`
  mkDate : Nat → Nat → Nat → Option Nat  -- `datetime(year, month, day)`
  fromIso : String → Option Nat    -- `datetime.fromisoformat(s.replace("Z", "+00:00"))`
  relDays : Nat → Nat → Nat        -- `d + relativedelta(days=k)`
  relWeeks : Nat → Nat → Nat       -- `d + relativedelta(weeks=k)`
  relMonths : Nat → Nat → Nat      -- `d + relativedelta(months=k)`
  relYears : Nat → Nat → Nat       -- `d + relativedelta(years=k)`

/-- A concrete `DateLib` used for closed statements (counterexamples and
witnesses); none of those inputs exercise calendar arithmetic non-trivially. -/
def dateLib0 : DateLib where
  addDays d k := d + k
  weekday d := d % 7
  strftimeYMD d := toString d
  mkDate y m d := some (y * 372 + m * 31 + d)
  fromIso _ := none
  relDays d k := d + k
  relWeeks d k := d + 7 * k
  relMonths d k := d + 31 * k
  relYears d k := d + 372 * k

/-!
## RuleBasedClassifier (`agents/rule_based_classifier.py`)

Python method names carry a leading underscore (`_extract_task_reference`
etc.); the Lean definitions drop it.
-/

def wsStar : Tok := .cls isWs 0 none false
def wsPlus : Tok := .cls isWs 1 none false
def digCap : Tok := .cls isDigitC 1 none true
def anyCap : Tok := .cls isAnyC 1 none true
def litS (s : String) : Tok := .lit s.toList

/-- The ordered numeric-id patterns of `_extract_task_reference`
(rule_based_classifier.py:157-166): `\bid\s*(\d+)`, `\btask\s*id\s*(\d+)`,
`\btask\s+(\d+)`, `\bnumber\s+(\d+)`, `#(\d+)`, `\btask(\d+)`, `\bid(\d+)`,
`(\d+)\s+task`. -/
def idPatterns : List (List Tok) :=
  [ [.wb, litS "id", wsStar, digCap],
    [.wb, litS "task", wsStar, litS "id", wsStar, digCap],
    [.wb, litS "task", wsPlus, digCap],
    [.wb, litS "number", wsPlus, digCap],
    [litS "#", digCap],
    [.wb, litS "task", digCap],
    [.wb, litS "id", digCap],
    [digCap, wsPlus, litS "task"] ]

/-- First matching id pattern wins (the `for pattern in patterns` loop). -/
def findTaskId : List (List Tok) → List Char → Option Int
  | [], _ => none
  | pat :: pats, msg =>
    match reGroup1 pat msg with
    | some g => some (digitsToNat g : Int)
    | none => findTaskId pats msg

/-- `\s+as\s+(completed?|done|finished?)\s*$` (rule_based_classifier.py:185). -/
def asStatusSuffixPat : List Tok :=
  [wsPlus, litS "as", wsPlus,
   .grp [[litS "complete", .grp [[litS "d"]] true],
         [litS "done"],
         [litS "finishe", .grp [[litS "d"]] true]] false,
   wsStar, .eos]

/-- `^\s*(the\s+)?task\s+` (rule_based_classifier.py:188). -/
def theTaskPrefixPat : List Tok :=
  [.bos, wsStar, .grp [[litS "the", wsPlus]] true, litS "task", wsPlus]

/-- `^\s*my\s+task\s+` (rule_based_classifier.py:189). -/
def myTaskPrefixPat : List Tok :=
  [.bos, wsStar, litS "my", wsPlus, litS "task", wsPlus]

def refKeywords : List String := ["delete", "remove", "complete", "done", "mark", "finish"]

/-- The free-text reference loop (rule_based_classifier.py:177-194): for the
first keyword occurring in the message, the text after it — with the trailing
"as completed/done/finished" and a leading "the task"/"my task" removed — is
the reference, provided it is nonempty with length > 2; otherwise the next
keyword is tried. -/
def extractTextReference : List String → List Char → Option (List Char)
  | [], _ => none
  | kw :: kws, msg =>
    match splitOnce kw.toList msg with
    | some (_, after) =>
      let refText := stripWs after
      let refText := stripWs (reSub asStatusSuffixPat [] refText)
      let refText := stripWs (reSub theTaskPrefixPat [] refText)
      let refText := stripWs (reSub myTaskPrefixPat [] refText)
      if !refText.isEmpty && refText.length > 2 then some refText
      else extractTextReference kws msg
    | none => extractTextReference kws msg

/-- `_extract_task_reference` (rule_based_classifier.py:142-196).  The batch
branch (lines 148-153) requires a literal `delete`/`remove` together with a
completion keyword and the word `task`. -/
def extract_task_reference (msg : String) : Entities :=
  if (pyIn "delete" msg || pyIn "remove" msg)
      && ((pyIn "completed" msg || pyIn "done" msg || pyIn "finished" msg)
          && pyIn "task" msg) then
    { batch_delete := some true, filter_completed := some true }
  else
    match findTaskId idPatterns msg.toList with
    | some n => { task_id := some n }
    | none =>
      match extractTextReference refKeywords msg.toList with
      | some r => { task_reference := some (String.mk r) }
      | none => {}

/-- The seven ordered title templates of `_extract_create_entities`
(rule_based_classifier.py:203-211). -/
def titlePatterns : List (List Tok) :=
  [ [litS "add", wsPlus, .grp [[litS "a", wsPlus], [litS "new", wsPlus]] true,
      litS "task", wsPlus, .grp [[litS "to", wsPlus]] true, anyCap],
    [litS "create", wsPlus, .grp [[litS "a", wsPlus], [litS "new", wsPlus]] true,
      .grp [[.cls isDigitC 1 none false, wsPlus]] true,
      litS "task", .grp [[litS "s"]] true, wsPlus,
      .grp [[litS "for", wsPlus], [litS "to", wsPlus]] true, anyCap],
    [litS "make", wsPlus,
      .grp [[litS "a", wsPlus], [litS "new", wsPlus], [.cls isDigitC 1 none false, wsPlus]] true,
      litS "task", .grp [[litS "s"]] true, wsPlus,
      .grp [[litS "for", wsPlus], [litS "to", wsPlus]] true, anyCap],
    [litS "remind", wsPlus, litS "me", wsPlus, litS "to", wsPlus, anyCap],
    [litS "new", wsPlus, litS "task", .grp [[litS "s"]] true, wsPlus,
      .grp [[litS "for", wsPlus]] true, anyCap],
    [litS "add", wsPlus, litS "new", wsPlus, litS "task", wsStar,
      .grp [[litS ":", wsStar]] true, anyCap],
    [.grp [[litS "add"], [litS "create"]] false, wsPlus,
      .grp [[litS "task", wsPlus]] true, anyCap] ]

/-- The title loop (rule_based_classifier.py:213-220): `title_text` is
overwritten by each matching template's stripped capture; the loop breaks on
the first capture of length > 2 that is not purely numeric, otherwise the
*last* matched capture survives. -/
def titleLoop : List (List Tok) → List Char → List Char → List Char
  | [], _, acc => acc
  | pat :: pats, msg, acc =>
    match reGroup1 pat msg with
    | some g =>
      let t := stripWs g
      if t.length > 2 && !pyIsDigit t then t
      else titleLoop pats msg t
    | none => titleLoop pats msg acc

/-- `tags?` fragment. -/
def tagOpt : List Tok := [litS "tag", .grp [[litS "s"]] true]

/-- The nine ordered cleanup substitutions applied to an extracted title
(rule_based_classifier.py:225-239). -/
def cleanupPats : List (List Tok) :=
  [ [.wb, litS "with", wsPlus] ++ tagOpt ++
      [wsPlus, litS "\"", .cls (fun c => c ≠ '"') 1 none false, litS "\"", wsStar],
    [.wb] ++ tagOpt ++
      [wsPlus, litS "\"", .cls (fun c => c ≠ '"') 1 none false, litS "\"", wsStar],
    [.wb, litS "with", wsPlus] ++ tagOpt ++ [wsPlus, .cls isWordC 1 none false, wsStar],
    [.wb] ++ tagOpt ++ [wsPlus, .cls isWordC 1 none false, wsStar],
    [.wb, litS "as", wsPlus, .grp [[litS "high"], [litS "medium"], [litS "low"]] false,
      wsPlus, litS "priority", .wb],
    [.wb, litS "due", wsPlus, litS "date", wsPlus, litS "tomorrow", .wb],
    [.wb, litS "due", wsPlus, litS "date", wsPlus, litS "today", .wb],
    [.wb, .grp [[litS "tomorrow"], [litS "today"], [litS "next week"], [litS "this week"]] false, .wb],
    [.wb, litS "date", wsPlus, .cls isDigitC 1 (some 2) false, wsPlus,
      .cls isDigitC 1 (some 2) false, wsPlus, .grp [[litS "and", wsPlus]] true,
      .cls isDigitC 4 (some 4) false, .wb] ]

/-- Title cleanup (rule_based_classifier.py:225-243): the nine substitutions in
order, then `strip('"\'')`, `strip()`, and whitespace collapse. -/
def cleanTitle (t : List Char) : List Char :=
  let t := cleanupPats.foldl (fun acc pat => reSub pat [] acc) t
  let t := stripWs (stripChars ['"', '\''] t)
  reSub [wsPlus] [' '] t

/-- `date\s+(\d{1,2})\s+(\d{1,2})\s+(?:and\s+)?(\d{4})`
(rule_based_classifier.py:292). -/
def datePat1 : List Tok :=
  [litS "date", wsPlus, .cls isDigitC 1 (some 2) true, wsPlus,
   .cls isDigitC 1 (some 2) true, wsPlus, .grp [[litS "and", wsPlus]] true,
   .cls isDigitC 4 (some 4) true]

/-- The slash-or-dash numeric date pattern `(\d{1,2})`, separator class
slash/dash, `(\d{1,2})`, separator, `(\d{4})` (rule_based_classifier.py:293). -/
def datePat2 : List Tok :=
  [.cls isDigitC 1 (some 2) true, .cls (fun c => c = '/' || c = '-') 1 (some 1) false,
   .cls isDigitC 1 (some 2) true, .cls (fun c => c = '/' || c = '-') 1 (some 1) false,
   .cls isDigitC 4 (some 4) true]

/-- The numeric date-pattern loop of `_extract_due_date`
(rule_based_classifier.py:296-306): groups are day, month, year; an invalid
calendar date (`ValueError`) is skipped. -/
def dateLoop (L : DateLib) : List (List Tok) → List Char → Option String
  | [], _ => none
  | pat :: pats, msg =>
    match reSearch pat msg with
    | some (d :: m :: y :: _) =>
      match L.mkDate (digitsToNat y) (digitsToNat m) (digitsToNat d) with
      | some dt => some (L.strftimeYMD dt)
      | none => dateLoop L pats msg
    | _ => dateLoop L pats msg

/-- `_extract_due_date` (rule_based_classifier.py:265-308). -/
def extract_due_date (L : DateLib) (today : Nat) (msg : String) : Option String :=
  if pyIn "tomorrow" msg then some (L.strftimeYMD (L.addDays today 1))
  else if pyIn "today" msg || pyIn "todays date" msg then some (L.strftimeYMD today)
  else if pyIn "next week" msg then some (L.strftimeYMD (L.addDays today 7))
  else if pyIn "this week" msg then
    let daysUntilFriday := (((4 : Int) - (L.weekday today : Int)) % 7).toNat
    some (L.strftimeYMD (L.addDays today daysUntilFriday))
  else dateLoop L [datePat1, datePat2] msg.toList

/-- The four tag patterns of `_extract_tags` (rule_based_classifier.py:315-320). -/
def tagPatterns : List (List Tok) :=
  [ [litS "with", wsPlus] ++ tagOpt ++
      [wsPlus, litS "\"", .cls (fun c => c ≠ '"') 1 none true, litS "\""],
    tagOpt ++ [wsPlus, litS "\"", .cls (fun c => c ≠ '"') 1 none true, litS "\""],
    [litS "with", wsPlus] ++ tagOpt ++ [wsPlus, .cls isWordC 1 none true],
    tagOpt ++ [wsPlus, .cls isWordC 1 none true] ]

/-- Comma-splitting and deduplicating appension of one `findall` capture
(rule_based_classifier.py:325-329). -/
def addTags (acc : List String) (raw : List Char) : List String :=
  ((String.mk raw).splitOn ",").foldl
    (fun acc tag =>
      let tag := pyStrip tag
      if tag ≠ "" && !acc.contains tag then acc ++ [tag] else acc) acc

/-- `_extract_tags` (rule_based_classifier.py:310-331). -/
def extract_tags (msg : String) : Option (List String) :=
  let tags := tagPatterns.foldl
    (fun acc pat => (reFindall pat msg.toList).foldl addTags acc) []
  if tags.isEmpty then none else some tags

/-- `_extract_priority` (rule_based_classifier.py:333-341). -/
def extract_priority (msg : String) : Option String :=
  if pyIn "high priority" msg || pyIn "urgent" msg || pyIn "important" msg
      || pyIn "as high" msg then some "high"
  else if pyIn "low priority" msg || pyIn "as low" msg then some "low"
  else if pyIn "medium priority" msg || pyIn "as medium" msg then some "medium"
  else none

/-- `_extract_create_entities` (rule_based_classifier.py:198-263). -/
def extract_create_entities (L : DateLib) (today : Nat) (msg : String) : Entities :=
  let titleText := titleLoop titlePatterns msg.toList []
  let title :=
    if titleText.isEmpty then none
    else
      let t := cleanTitle titleText
      if t.isEmpty then none else some (String.mk t)
  { title := title,
    due_date := extract_due_date L today msg,
    tags := extract_tags msg,
    priority := extract_priority msg }

/-- `\bid\s*(\d+)`, `\btask\s*id\s*(\d+)`, `\btask\s+(\d+)` — the id-pattern
subset used by `_extract_update_entities` (rule_based_classifier.py:351-355). -/
def updIdPatterns : List (List Tok) :=
  [ [.wb, litS "id", wsStar, digCap],
    [.wb, litS "task", wsStar, litS "id", wsStar, digCap],
    [.wb, litS "task", wsPlus, digCap] ]

/-- `\b(update|task|the|a|an|my)\b` (rule_based_classifier.py:372). -/
def updStopPat : List Tok :=
  [.wb, .grp [[litS "update"], [litS "task"], [litS "the"], [litS "a"],
              [litS "an"], [litS "my"]] false, .wb]

/-- The update-reference loop (rule_based_classifier.py:367-375). -/
def updRefLoop : List String → List Char → Option (List Char)
  | [], _ => none
  | kw :: kws, msg =>
    match splitOnce kw.toList msg with
    | some (before, _) =>
      let refText := stripWs (reSub updStopPat [] before)
      if !refText.isEmpty && refText.length > 2 then some refText
      else updRefLoop kws msg
    | none => updRefLoop kws msg

/-- `\b(due date|tomorrow|today|with tag|priority)\b.*`
(rule_based_classifier.py:385). -/
def attrTailPat : List Tok :=
  [.wb, .grp [[litS "due date"], [litS "tomorrow"], [litS "today"],
              [litS "with tag"], [litS "priority"]] false,
   .wb, .cls isAnyC 0 none false]

/-- `_extract_update_entities` (rule_based_classifier.py:343-422). -/
def extract_update_entities (L : DateLib) (today : Nat) (msg : String) : Entities :=
  let m := msg.toList
  let task_id := findTaskId updIdPatterns m
  let task_reference :=
    if task_id.isSome then none
    else (updRefLoop ["with", "to", "as", "due"] m).map String.mk
  let description :=
    if pyIn "with description" msg then
      match splitOnce "with description".toList m with
      | some (_, after) =>
        let d := stripChars ['"', '\''] (stripWs after)
        let d := stripWs (reSub attrTailPat [] d)
        if d.isEmpty then none else some (String.mk d)
      | none => none
    else if pyIn "description" msg && !pyIn "with" msg then
      match splitOnce "description".toList m with
      | some (_, after) =>
        let d := stripChars ['"', '\''] (stripWs after)
        let d := stripWs (reSub attrTailPat [] d)
        if d.isEmpty then none else some (String.mk d)
      | none => none
    else none
  let title :=
    if pyIn " to " msg && !pyIn "description" msg && !pyIn "due" msg then
      match splitOnce " to ".toList m with
      | some (_, after) =>
        let t := stripWs after
        let t := stripWs (reSub attrTailPat [] t)
        if t.isEmpty then none else some (String.mk t)
      | none => none
    else none
  { task_id := task_id,
    task_reference := task_reference,
    description := description,
    title := title,
    due_date := extract_due_date L today msg,
    tags := extract_tags msg,
    priority := extract_priority msg }

/-- `_extract_list_filters` (rule_based_classifier.py:424-436). -/
def extract_list_filters (msg : String) : Entities :=
  let e : Entities := {}
  let e :=
    if pyIn "completed" msg || pyIn "done" msg || pyIn "finished" msg then
      { e with filter_completed := some true }
    else if pyIn "pending" msg || pyIn "active" msg || pyIn "todo" msg then
      { e with filter_completed := some false }
    else e
  if pyIn "urgent" msg || pyIn "high priority" msg then
    { e with priority := some "high" }
  else e

/-- `_is_list_tasks` (rule_based_classifier.py:92-100). -/
def is_list_tasks (msg : String) : Bool :=
  (pyIn "show" msg || pyIn "list" msg || pyIn "view" msg || pyIn "display" msg)
    && (pyIn "task" msg || pyIn "todo" msg)

/-- `_is_create_task` (rule_based_classifier.py:102-116). -/
def is_create_task (msg : String) : Bool :=
  if pyIn "remind me" msg then true
  else if pyIn "make" msg && (pyIn "task" msg || pyIn "todo" msg) then true
  else (pyIn "add" msg || pyIn "create" msg || pyIn "new" msg || pyIn "remind" msg)
    && (pyIn "task" msg || pyIn "todo" msg || pyIn "reminder" msg)

/-- `_is_complete_task` (rule_based_classifier.py:118-121). -/
def is_complete_task (msg : String) : Bool :=
  pyIn "mark" msg || pyIn "complete" msg || pyIn "done" msg
    || pyIn "finish" msg || pyIn "completed" msg

/-- `_is_delete_task` (rule_based_classifier.py:123-135): both inner branches
return `True`, so the predicate is just the keyword test. -/
def is_delete_task (msg : String) : Bool :=
  pyIn "delete" msg || pyIn "remove" msg || pyIn "trash" msg || pyIn "cancel" msg

/-- `_is_update_task` (rule_based_classifier.py:137-140). -/
def is_update_task (msg : String) : Bool :=
  pyIn "update" msg || pyIn "change" msg || pyIn "edit" msg
    || pyIn "modify" msg || pyIn "rename" msg

/-- `RuleBasedClassifier.classify` (rule_based_classifier.py:26-90). -/
def RuleBasedClassifier_classify (L : DateLib) (today : Nat) (message : String) :
    Classification :=
  let msg := pyStrip (pyLower message)
  if is_list_tasks msg then ⟨"list_tasks", mkRat 95 100, extract_list_filters msg⟩
  else if is_delete_task msg then ⟨"delete_task", mkRat 9 10, extract_task_reference msg⟩
  else if is_complete_task msg then ⟨"complete_task", mkRat 9 10, extract_task_reference msg⟩
  else if is_create_task msg then ⟨"create_task", mkRat 9 10, extract_create_entities L today msg⟩
  else if is_update_task msg then ⟨"update_task", mkRat 85 100, extract_update_entities L today msg⟩
  else ⟨"unclear", mkRat 2 10, {}⟩

/-!
## Data model: rows and the store

`models/task.py`, `models/conversation.py`, and an explicit store `DB` standing
for the SQLModel session plus database.  Autoincrement primary keys are the
`next…Id` counters; `datetime.now(timezone.utc)` is the store's `now` instant.
Conversation ids (UUIDs in the source) are abstracted to `Nat`; user ids to
`Nat` (the `UUID(user_id)` string conversions in the tools always succeed for
authenticated callers and are dropped).
-/

abbrev UserId := Nat

inductive TaskPriority where
  | high
  | medium
  | low
deriving DecidableEq, Repr

/-- `TaskPriority.value` (models/task.py:16-20). -/
def TaskPriority.value : TaskPriority → String
  | .high => "high"
  | .medium => "medium"
  | .low => "low"

/-- `TaskPriority(s.lower())`; `none` models the `ValueError`. -/
def parsePriority (s : String) : Option TaskPriority :=
  if pyLower s == "high" then some .high
  else if pyLower s == "medium" then some .medium
  else if pyLower s == "low" then some .low
  else none

/-- A recurrence-rule JSON object; `none` fields model absent keys. -/
structure RecurrenceRule where
  frequency : Option String := none
  interval : Option Nat := none
deriving DecidableEq, Repr

structure TaskRec where
  id : Int
  user_id : UserId
  title : String
  description : String
  completed : Bool
  priority : TaskPriority
  due_date : Option Nat
  tags : Option (List String)
  recurrence_rule : Option RecurrenceRule
  created_at : Nat
  updated_at : Nat
  deleted_at : Option Nat
deriving DecidableEq, Repr

inductive MessageRole where
  | user
  | assistant
deriving DecidableEq, Repr

structure Conversation where
  id : Nat
  user_id : UserId
  created_at : Nat
  updated_at : Nat
  deleted_at : Option Nat
deriving DecidableEq, Repr

structure MessageRec where
  id : Int
  conversation_id : Nat
  user_id : UserId
  role : MessageRole
  content : String
  created_at : Nat
  deleted_at : Option Nat
deriving DecidableEq, Repr

structure DB where
  tasks : List TaskRec
  conversations : List Conversation
  messages : List MessageRec
  nextTaskId : Int
  nextConvId : Nat
  nextMsgId : Int
  now : Nat
deriving DecidableEq, Repr

/-!
## TaskRec service (`services/task_service.py`)
-/

/-- The row predicate of `get_task_by_id` (task_service.py:92-117). -/
def taskRowPred (task_id : Int) (user_id : UserId) (t : TaskRec) : Bool :=
  t.id == task_id && t.user_id == user_id && t.deleted_at.isNone

/-- `get_task_by_id`: first matching non-deleted row of the user. -/
def get_task_by_id (db : DB) (task_id : Int) (user_id : UserId) : Option TaskRec :=
  db.tasks.find? (taskRowPred task_id user_id)

/-- In-place mutation of the first row satisfying `p` (the ORM updates the
fetched row object). -/
def updateFirst {α : Type} (p : α → Bool) (f : α → α) : List α → List α
  | [] => []
  | t :: ts => if p t then f t :: ts else t :: updateFirst p f ts

/-- Stable insertion for `pySortedBy`. -/
def insertByKey {α β : Type} (lt : β → β → Bool) (key : α → β) (x : α) :
    List α → List α
  | [] => [x]
  | y :: ys => if lt (key y) (key x) then y :: insertByKey lt key x ys else x :: y :: ys

/-- Python `sorted(l, key=key, reverse=reverse)`: the stable sort by `key`;
any stable sorting algorithm produces the same list. -/
def pySortedBy {α β : Type} (lt : β → β → Bool) (key : α → β) (reverse : Bool)
    (l : List α) : List α :=
  l.foldr (insertByKey (if reverse then fun a b => lt b a else lt) key) []

/-- `priority_order = {"high": 3, "medium": 2, "low": 1}` (task_service.py:75);
`TaskPriority` is a `str` enum, so the `.get` lookup succeeds on every row. -/
def priorityRank : TaskPriority → Nat
  | .high => 3
  | .medium => 2
  | .low => 1

/-- `datetime.max` placeholder used as the due-date sort key of rows without a
due date (task_service.py:81).  It is only ever compared against itself —
the first key component already separates dated from undated rows — so any
constant yields the same ordering. -/
def datetimeMax : Nat := 0

/-- Lexicographic strict order on `(due_date is None, due_date)` keys. -/
def ltDueKey (a b : Bool × Nat) : Bool :=
  (!a.1 && b.1) || (a.1 == b.1 && decide (a.2 < b.2))

/-- `get_tasks` (task_service.py:16-89): user isolation, soft-delete
exclusion, optional priority/completed filters, Python-side tags filter, then
a stable sort chosen by `sort_by`/`order`. -/
def get_tasks (db : DB) (user_id : UserId) (priority : Option TaskPriority)
    (tags : Option (List String)) (completed : Option Bool)
    (sort_by : String) (order : String) : List TaskRec :=
  let tasks := db.tasks.filter fun t => t.user_id == user_id && t.deleted_at.isNone
  let tasks := match priority with
    | some p => tasks.filter fun t => t.priority == p
    | none => tasks
  let tasks := match completed with
    | some c => tasks.filter fun t => t.completed == c
    | none => tasks
  let tasks :=
    if pyTruthyList tags then
      tasks.filter fun t =>
        pyTruthyList t.tags && (tags.getD []).all fun tag => (t.tags.getD []).contains tag
    else tasks
  let reverse := order == "desc"
  if sort_by == "priority" then
    pySortedBy (fun a b => decide (a < b)) (fun t => priorityRank t.priority) reverse tasks
  else if sort_by == "due_date" then
    pySortedBy ltDueKey (fun t => (t.due_date.isNone, t.due_date.getD datetimeMax)) reverse tasks
  else if sort_by == "updated_at" then
    pySortedBy (fun a b => decide (a < b)) (fun t => t.updated_at) reverse tasks
  else
    pySortedBy (fun a b => decide (a < b)) (fun t => t.created_at) reverse tasks

/-- `create_task` (task_service.py:120-165). -/
def task_service_create_task (db : DB) (user_id : UserId) (title description : String)
    (priority : TaskPriority) (due_date : Option Nat) (tags : Option (List String))
    (recurrence_rule : Option RecurrenceRule) : TaskRec × DB :=
  let task : TaskRec :=
    { id := db.nextTaskId, user_id := user_id, title := title,
      description := description, completed := false, priority := priority,
      due_date := due_date, tags := tags, recurrence_rule := recurrence_rule,
      created_at := db.now, updated_at := db.now, deleted_at := none }
  (task, { db with tasks := db.tasks ++ [task], nextTaskId := db.nextTaskId + 1 })

/-- `update_task` (task_service.py:168-229): only provided fields change;
`updated_at` is bumped. -/
def task_service_update_task (db : DB) (task_id : Int) (user_id : UserId)
    (title description : Option String) (priority : Option TaskPriority)
    (due_date : Option Nat) (tags : Option (List String))
    (recurrence_rule : Option RecurrenceRule) : Option TaskRec × DB :=
  match get_task_by_id db task_id user_id with
  | none => (none, db)
  | some t =>
    let t' : TaskRec :=
      { t with
        title := title.getD t.title,
        description := description.getD t.description,
        priority := priority.getD t.priority,
        due_date := match due_date with | some d => some d | none => t.due_date,
        tags := match tags with | some ts => some ts | none => t.tags,
        recurrence_rule := match recurrence_rule with
                           | some r => some r | none => t.recurrence_rule,
        updated_at := db.now }
    (some t', { db with tasks := updateFirst (taskRowPred task_id user_id) (fun _ => t') db.tasks })

/-- `delete_task` (task_service.py:232-264): soft delete. -/
def task_service_delete_task (db : DB) (task_id : Int) (user_id : UserId) :
    Bool × DB :=
  match get_task_by_id db task_id user_id with
  | none => (false, db)
  | some _ =>
    let softDelete := fun (t : TaskRec) =>
      { t with deleted_at := some db.now, updated_at := db.now }
    (true, { db with tasks := updateFirst (taskRowPred task_id user_id) softDelete db.tasks })

/-- `_calculate_next_occurrence` (task_service.py:421-455). -/
def calculate_next_occurrence (L : DateLib) (from_date : Nat) (rule : RecurrenceRule) : Nat :=
  let frequency := rule.frequency.getD "daily"
  let interval := rule.interval.getD 1
  if frequency == "daily" then L.relDays from_date interval
  else if frequency == "weekly" then L.relWeeks from_date interval
  else if frequency == "monthly" then L.relMonths from_date interval
  else if frequency == "yearly" then L.relYears from_date interval
  else L.relDays from_date interval

/-- `_create_next_occurrence` (task_service.py:380-418): a fresh pending copy
of a completed recurring task at the next occurrence date. -/
def create_next_occurrence (L : DateLib) (db : DB) (completed_task : TaskRec) :
    Option TaskRec × DB :=
  match completed_task.due_date, completed_task.recurrence_rule with
  | some d, some r =>
    let next_due := calculate_next_occurrence L d r
    let next_task : TaskRec :=
      { id := db.nextTaskId, user_id := completed_task.user_id,
        title := completed_task.title, description := completed_task.description,
        completed := false, priority := completed_task.priority,
        due_date := some next_due, tags := completed_task.tags,
        recurrence_rule := some r, created_at := db.now, updated_at := db.now,
        deleted_at := none }
    (some next_task, { db with tasks := db.tasks ++ [next_task], nextTaskId := db.nextTaskId + 1 })
  | _, _ => (none, db)

/-- `toggle_completion` (task_service.py:334-377): flip `completed`, bump
`updated_at`, and on completing a recurring task create its next occurrence. -/
def toggle_completion (L : DateLib) (db : DB) (task_id : Int) (user_id : UserId) :
    Option TaskRec × DB :=
  match get_task_by_id db task_id user_id with
  | none => (none, db)
  | some task =>
    let is_completing := !task.completed
    let has_recurrence :=
      match task.recurrence_rule with
      | some r => r.frequency.isSome
      | none => false
    let task' := { task with completed := !task.completed, updated_at := db.now }
    let db1 := { db with tasks := updateFirst (taskRowPred task_id user_id) (fun _ => task') db.tasks }
    if is_completing && has_recurrence then
      (some task', (create_next_occurrence L db1 task').2)
    else
      (some task', db1)

/-!
## MCP task tools (`mcp/task_tools.py`)

Tool responses are dictionaries `{success: ..., ...}`; `ToolResult` has one
optional field per key any tool ever writes.  Task snapshots keep the
timestamps as instants (the `isoformat()` renderings carry the same data and
no claim inspects the rendered text).
-/

structure TaskSnapshot where
  id : Int
  title : String
  description : String
  completed : Bool
  priority : String
  due_date : Option Nat
  tags : Option (List String)
  created_at : Nat
  updated_at : Nat
deriving DecidableEq, Repr

/-- The snapshot dictionary built by every tool (task_tools.py:126-137 etc.). -/
def snapshotOf (t : TaskRec) : TaskSnapshot :=
  { id := t.id, title := t.title, description := t.description,
    completed := t.completed, priority := t.priority.value,
    due_date := t.due_date, tags := t.tags,
    created_at := t.created_at, updated_at := t.updated_at }

structure ToolResult where
  success : Bool
  task : Option TaskSnapshot := none
  tasks : Option (List TaskSnapshot) := none
  error : Option String := none
  deleted_count : Option Nat := none
  failed_count : Option Nat := none
  message : Option String := none
deriving DecidableEq, Repr

/-- `add_task` (task_tools.py:43-145).  The `UUID(user_id)` conversion is
dropped (typed user ids); the early returns are sequenced as in the source:
due-date parse, priority parse, title validation, then creation. -/
def mcp_add_task (L : DateLib) (db : DB) (user_id : UserId) (title : String)
    (description : String) (priority : String) (due_date : Option String)
    (tags : Option (List String)) : ToolResult × DB :=
  let dueParsed : Except String (Option Nat) :=
    if pyTruthyStr due_date then
      match L.fromIso (due_date.getD "") with
      | some d => .ok (some d)
      | none => .error ("Invalid due_date format: " ++ due_date.getD ""
          ++ ". Use ISO format (e.g., '2026-01-15T10:30:00Z')")
    else .ok none
  match dueParsed with
  | .error e => ({ success := false, error := some e }, db)
  | .ok due_date_obj =>
    match parsePriority priority with
    | none =>
      ({ success := false,
         error := some ("Invalid priority '" ++ priority ++ "'. Must be 'high', 'medium', or 'low'") }, db)
    | some priority_enum =>
      if title == "" || pyStrip title == "" then
        ({ success := false, error := some "Task title cannot be empty" }, db)
      else
        let descStripped := if description != "" then pyStrip description else ""
        let (task, db') := task_service_create_task db user_id (pyStrip title) descStripped
          priority_enum due_date_obj tags none
        ({ success := true, task := some (snapshotOf task) }, db')

/-- `list_tasks` (task_tools.py:148-252): status/priority parsing, limit cap
200, Phase II query with `created_at desc`, then the limit slice. -/
def mcp_list_tasks (db : DB) (user_id : UserId) (status : String)
    (priority : Option String) (tags : Option (List String)) (limit : Nat) :
    ToolResult :=
  let completedFilter : Except String (Option Bool) :=
    if status == "pending" then .ok (some false)
    else if status == "completed" then .ok (some true)
    else if status != "all" then
      .error ("Invalid status '" ++ status ++ "'. Must be 'all', 'pending', or 'completed'")
    else .ok none
  match completedFilter with
  | .error e => { success := false, error := some e }
  | .ok cf =>
    let priorityParsed : Except String (Option TaskPriority) :=
      if pyTruthyStr priority then
        match parsePriority (priority.getD "") with
        | some p => .ok (some p)
        | none => .error ("Invalid priority '" ++ priority.getD ""
            ++ "'. Must be 'high', 'medium', or 'low'")
      else .ok none
    match priorityParsed with
    | .error e => { success := false, error := some e }
    | .ok pr =>
      let limit := min limit 200
      let tasks := get_tasks db user_id pr tags cf "created_at" "desc"
      let tasks := tasks.take limit
      { success := true, tasks := some (tasks.map snapshotOf) }

/-- `complete_task` (task_tools.py:255-332): toggle once; if the toggled state
differs from the requested target, toggle a second time. -/
def mcp_complete_task (L : DateLib) (db : DB) (user_id : UserId) (task_id : Int)
    (completed : Bool) : ToolResult × DB :=
  match toggle_completion L db task_id user_id with
  | (none, db1) =>
    ({ success := false,
       error := some ("Task " ++ toString task_id ++ " not found or does not belong to user") }, db1)
  | (some task, db1) =>
    if task.completed != completed then
      match toggle_completion L db1 task_id user_id with
      | (some task2, db2) => ({ success := true, task := some (snapshotOf task2) }, db2)
      | (none, db2) =>
        -- A vanished row would make the Python attribute access on `task` raise,
        -- caught by the tool's `except` (task_tools.py:326-332); unreachable here.
        ({ success := false,
           error := some "Failed to toggle task completion: 'NoneType' object has no attribute 'completed'" }, db2)
    else
      ({ success := true, task := some (snapshotOf task) }, db1)

/-- `delete_task` (task_tools.py:335-388): soft delete via the service. -/
def mcp_delete_task (db : DB) (user_id : UserId) (task_id : Int) : ToolResult × DB :=
  match task_service_delete_task db task_id user_id with
  | (false, db1) =>
    ({ success := false,
       error := some ("Task " ++ toString task_id ++ " not found or does not belong to user") }, db1)
  | (true, db1) => ({ success := true }, db1)

/-- `update_task` (task_tools.py:391-503). -/
def mcp_update_task (L : DateLib) (db : DB) (user_id : UserId) (task_id : Int)
    (title description priority due_date : Option String)
    (tags : Option (List String)) : ToolResult × DB :=
  let priorityParsed : Except String (Option TaskPriority) :=
    if pyTruthyStr priority then
      match parsePriority (priority.getD "") with
      | some p => .ok (some p)
      | none => .error ("Invalid priority '" ++ priority.getD ""
          ++ "'. Must be 'high', 'medium', or 'low'")
    else .ok none
  match priorityParsed with
  | .error e => ({ success := false, error := some e }, db)
  | .ok priority_enum =>
    let dueParsed : Except String (Option Nat) :=
      if pyTruthyStr due_date then
        match L.fromIso (due_date.getD "") with
        | some d => .ok (some d)
        | none => .error ("Invalid due_date format: " ++ due_date.getD "" ++ ". Use ISO format")
      else .ok none
    match dueParsed with
    | .error e => ({ success := false, error := some e }, db)
    | .ok due_date_obj =>
      let titleArg := if pyTruthyStr title then some (pyStrip (title.getD "")) else none
      let descArg := if pyTruthyStr description then some (pyStrip (description.getD "")) else none
      match task_service_update_task db task_id user_id titleArg descArg
          priority_enum due_date_obj tags none with
      | (none, db1) =>
        ({ success := false,
           error := some ("Task " ++ toString task_id ++ " not found or does not belong to user") }, db1)
      | (some task, db1) => ({ success := true, task := some (snapshotOf task) }, db1)

/-!
## TaskResolutionAgent (`agents/task_resolution.py`)
-/

structure MatchEntry where
  id : Int
  title : String
  completed : Bool
deriving DecidableEq, Repr

structure Resolution where
  task_ids : List Int
  confirmation_needed : Bool
  -- `matches` in the source; renamed because `matches` is a Lean keyword
  matchList : List MatchEntry
  error : Option String := none
deriving DecidableEq, Repr

/-- The fall-through result (task_resolution.py:203-208). -/
def noRefResolution : Resolution :=
  { task_ids := [], confirmation_needed := false, matchList := [],
    error := some "No task reference found in message" }

/-- Insertion order of `ordinal_map` (task_resolution.py:165-172). -/
def ordinal_map : List (String × Int) :=
  [("first", 0), ("1st", 0), ("second", 1), ("2nd", 1), ("third", 2), ("3rd", 2),
   ("fourth", 3), ("4th", 3), ("fifth", 4), ("5th", 4), ("last", -1)]

/-- The positional-reference loop (task_resolution.py:174-196): for each
ordinal word occurring in the reference, fetch pending tasks and return the
task at that index when in range (`-1` = last); otherwise keep looping.
`matchList` holds the snapshot's id/title/completed (the further snapshot
fields are never read downstream). -/
def ordinalLoop (db : DB) (user_id : UserId) (reference : String) :
    List (String × Int) → Option Resolution
  | [] => none
  | (word, index) :: rest =>
    if pyIn word reference then
      let tasks_result := mcp_list_tasks db user_id "pending" none none 50
      if tasks_result.success then
        let tasks := tasks_result.tasks.getD []
        if 0 ≤ index ∧ index < tasks.length then
          match tasks.get? index.toNat with
          | some t =>
            some { task_ids := [t.id], confirmation_needed := false,
                   matchList := [⟨t.id, t.title, t.completed⟩] }
          | none => ordinalLoop db user_id reference rest
        else if index == -1 ∧ !tasks.isEmpty then
          match tasks.getLast? with
          | some t =>
            some { task_ids := [t.id], confirmation_needed := false,
                   matchList := [⟨t.id, t.title, t.completed⟩] }
          | none => ordinalLoop db user_id reference rest
        else ordinalLoop db user_id reference rest
      else ordinalLoop db user_id reference rest
    else ordinalLoop db user_id reference rest

/-- `TaskResolutionAgent.resolve` (task_resolution.py:39-221).  Case 1:
explicit (truthy) `task_id`.  Case 2: truthy free-text `task_reference`,
matched by case-insensitive bidirectional substring test against all the
user's tasks; this case always returns (one match, several matchList, or a
no-match error).  Case 3 (guarded only by key presence, task_resolution.py:163)
is therefore reached only with an empty reference, which no ordinal word can
match. -/
def TaskResolutionAgent_resolve (db : DB) (user_id : UserId) (entities : Entities) :
    Resolution :=
  if pyTruthyInt entities.task_id then
    { task_ids := [entities.task_id.getD 0], confirmation_needed := false, matchList := [] }
  else if pyTruthyStr entities.task_reference then
    let reference := pyStrip (pyLower (entities.task_reference.getD ""))
    let tasks_result := mcp_list_tasks db user_id "all" none none 50
    if !tasks_result.success then
      { task_ids := [], confirmation_needed := false, matchList := [],
        error := some "Failed to retrieve tasks" }
    else
      let tasks := tasks_result.tasks.getD []
      let matchList := (tasks.filter fun t =>
          pyIn reference (pyLower t.title) || pyIn (pyLower t.title) reference).map
        fun t => (⟨t.id, t.title, t.completed⟩ : MatchEntry)
      match matchList with
      | [m] => { task_ids := [m.id], confirmation_needed := false, matchList := matchList }
      | _ :: _ :: _ =>
        { task_ids := matchList.map (·.id), confirmation_needed := true, matchList := matchList }
      | [] =>
        { task_ids := [], confirmation_needed := false, matchList := [],
          error := some ("No tasks found matching '" ++ reference ++ "'") }
  else if entities.task_reference.isSome then
    let reference := pyLower (entities.task_reference.getD "")
    match ordinalLoop db user_id reference ordinal_map with
    | some r => r
    | none => noRefResolution
  else noRefResolution

/-!
## ActionAgent (`agents/action_agent.py`)

`execute` dispatches on the intent string; its `try/except` converts any
exception raised below it into a `Failed to execute action: ...` failure.  The
only raising site on the modelled paths is the batch-delete `list_tasks` call
(see `unexpectedKwarg`); the third component of the result counts
`self.task_resolver.resolve` invocations (instrumentation for the theorems,
no effect on data flow).
-/

/-- `"\n".join(f"{i+1}. {t['title']} (ID: {t['id']})" ...)`
(action_agent.py:173, :266). -/
def enumerateMatches (ms : List MatchEntry) : String :=
  String.intercalate "\n" (ms.enum.map fun p =>
    toString (p.1 + 1) ++ ". " ++ p.2.title ++ " (ID: " ++ toString p.2.id ++ ")")

/-- The parameters of `list_tasks` (task_tools.py:148-156). -/
def listTasksAcceptedKwargs : List String :=
  ["db", "user_id", "status", "priority", "tags", "limit", "correlation_id"]

/-- The keyword arguments of the batch-delete call site (action_agent.py:205-210). -/
def batchDeleteListCallKwargs : List String :=
  ["db", "user_id", "completed", "correlation_id"]

/-- Python binds keyword arguments against the callee's parameter list before
executing its body; a keyword matching no parameter (and no `**kwargs`) raises
`TypeError: <fn>() got an unexpected keyword argument '<kw>'` at the call.
This is the first such keyword of the batch-delete `list_tasks` call. -/
def unexpectedKwarg : Option String :=
  batchDeleteListCallKwargs.find? fun k => !(listTasksAcceptedKwargs.contains k)

/-- `_execute_create_task` (action_agent.py:121-136). -/
def execute_create_task (L : DateLib) (db : DB) (params : Entities) (u : UserId) :
    ToolResult × DB :=
  if !pyTruthyStr params.title then
    ({ success := false, error := some "Task title is required" }, db)
  else
    mcp_add_task L db u (params.title.getD "") (params.description.getD "")
      (params.priority.getD "medium") params.due_date params.tags

/-- `_execute_list_tasks` (action_agent.py:138-157): `completed` or
`filter_completed` (Python `or`) selects the status; no modelled caller ever
supplies a `limit` parameter, so the default 50 applies. -/
def execute_list_tasks (db : DB) (params : Entities) (u : UserId) : ToolResult :=
  let completed_filter : Option Bool :=
    match params.completed with
    | some true => some true
    | _ => params.filter_completed
  let status :=
    if completed_filter == some true then "completed"
    else if completed_filter == some false then "pending"
    else "all"
  mcp_list_tasks db u status params.priority params.tags 50

/-- `_execute_complete_task` (action_agent.py:159-192). -/
def execute_complete_task (L : DateLib) (db : DB) (params : Entities) (u : UserId) :
    ToolResult × DB × Nat :=
  let step : Except ToolResult (Option Int × Nat) :=
    if !pyTruthyInt params.task_id && pyTruthyStr params.task_reference then
      let resolution := TaskResolutionAgent_resolve db u params
      if pyTruthyStr resolution.error then
        .error { success := false, error := resolution.error }
      else if resolution.confirmation_needed then
        .error { success := false,
                 error := some ("Multiple tasks found. Please specify which one:\n"
                   ++ enumerateMatches resolution.matchList) }
      else
        match resolution.task_ids with
        | tid :: _ => .ok (some tid, 1)
        | [] => .ok (params.task_id, 1)
    else .ok (params.task_id, 0)
  match step with
  | .error r => (r, db, 1)
  | .ok (task_id, rc) =>
    if !pyTruthyInt task_id then
      ({ success := false, error := some "Task ID is required to mark as complete" }, db, rc)
    else
      let (r, db') := mcp_complete_task L db u (task_id.getD 0) (params.completed.getD true)
      (r, db', rc)

/-- `_execute_delete_task` (action_agent.py:194-284).  The batch branch
(lines 197-252) begins with `list_tasks(db=db, user_id=user_id,
completed=True, correlation_id=correlation_id)`; `list_tasks` has no
parameter named `completed` (task_tools.py:148-156), so the call raises
`TypeError` before any deletion, and the accumulation loop below it
(lines 224-252) is unreachable.  The `.error` carries `str(e)`. -/
def execute_delete_task (L : DateLib) (db : DB) (params : Entities) (u : UserId) :
    Except String (ToolResult × DB × Nat) :=
  if pyTruthyBool params.batch_delete && pyTruthyBool params.filter_completed then
    .error ("list_tasks() got an unexpected keyword argument '"
      ++ unexpectedKwarg.getD "" ++ "'")
  else
    let step : Except ToolResult (Option Int × Nat) :=
      if !pyTruthyInt params.task_id && pyTruthyStr params.task_reference then
        let resolution := TaskResolutionAgent_resolve db u params
        if pyTruthyStr resolution.error then
          .error { success := false, error := resolution.error }
        else if resolution.confirmation_needed then
          .error { success := false,
                   error := some ("Multiple tasks found. Please specify which one:\n"
                     ++ enumerateMatches resolution.matchList) }
        else
          match resolution.task_ids with
          | tid :: _ => .ok (some tid, 1)
          | [] => .ok (params.task_id, 1)
      else .ok (params.task_id, 0)
    match step with
    | .error r => .ok (r, db, 1)
    | .ok (task_id, rc) =>
      if !pyTruthyInt task_id then
        .ok ({ success := false, error := some "Task ID is required to delete" }, db, rc)
      else
        let (r, db') := mcp_delete_task db u (task_id.getD 0)
        .ok (r, db', rc)

/-- `_execute_update_task` (action_agent.py:286-303): requires an explicit
`task_id`; no task-reference resolution on this path. -/
def execute_update_task (L : DateLib) (db : DB) (params : Entities) (u : UserId) :
    ToolResult × DB :=
  if !pyTruthyInt params.task_id then
    ({ success := false, error := some "Task ID is required to update" }, db)
  else
    mcp_update_task L db u (params.task_id.getD 0) params.title params.description
      params.priority params.due_date params.tags

/-- `ActionAgent.execute` (action_agent.py:48-119). -/
def ActionAgent_execute (L : DateLib) (db : DB) (intent : String) (params : Entities)
    (u : UserId) : ToolResult × DB × Nat :=
  let body : Except String (ToolResult × DB × Nat) :=
    if intent == "create_task" then
      let (r, db') := execute_create_task L db params u
      .ok (r, db', 0)
    else if intent == "list_tasks" then
      .ok (execute_list_tasks db params u, db, 0)
    else if intent == "complete_task" then
      .ok (execute_complete_task L db params u)
    else if intent == "delete_task" then
      execute_delete_task L db params u
    else if intent == "update_task" then
      let (r, db') := execute_update_task L db params u
      .ok (r, db', 0)
    else if intent == "unclear" then
      .ok ({ success := false,
             error := some "Could not determine what action to take. Please rephrase your request." },
           db, 0)
    else
      .ok ({ success := false, error := some ("Unknown intent: " ++ intent) }, db, 0)
  match body with
  | .ok r => r
  | .error msg =>
    -- `except Exception` (action_agent.py:110-119); the only modelled raise occurs
    -- before any store mutation, so the store is returned unchanged.
    ({ success := false, error := some ("Failed to execute action: " ++ msg) }, db, 0)

/-!
## ResponseFormatterAgent (`agents/response_formatter.py`)
-/

/-- Models `task["due_date"].split("T")[0]` (response_formatter.py:111):
a rendering of the instant, presentation only. -/
def dateRender (d : Nat) : String := toString d

/-- `_format_create_task` (response_formatter.py:98-113).  The snapshot
defaults (`Untitled`, `?`, `medium`) apply when the `task` key is absent. -/
def format_create_task (result : ToolResult) : String :=
  let title := match result.task with | some t => t.title | none => "Untitled"
  let task_id := match result.task with | some t => toString t.id | none => "?"
  let priority := match result.task with | some t => t.priority | none => "medium"
  let response := "✓ Created task: '" ++ title ++ "' (ID: " ++ task_id ++ ")."
  let response := if priority == "high" then response ++ " Marked as high priority." else response
  match result.task with
  | some t =>
    match t.due_date with
    | some d => response ++ " Due: " ++ dateRender d ++ "."
    | none => response
  | none => response

/-- One line of `_format_list_tasks` (response_formatter.py:125-140). -/
def formatListLine (i : Nat) (t : TaskSnapshot) : String :=
  let icon := if t.completed then "✓" else "○"
  let line := toString i ++ ". [" ++ icon ++ "] " ++ t.title ++ " (ID: " ++ toString t.id ++ ")"
  if t.priority == "high" then line ++ " 🔴"
  else if t.priority == "low" then line ++ " 🟢"
  else line

/-- `_format_list_tasks` (response_formatter.py:115-145). -/
def format_list_tasks (result : ToolResult) : String :=
  let tasks := result.tasks.getD []
  if tasks.isEmpty then
    "You don't have any tasks yet. Try creating one by saying 'add a task to...'."
  else
    let lines := ["You have " ++ toString tasks.length ++ " task(s):"]
      ++ ((tasks.take 10).enum.map fun p => formatListLine (p.1 + 1) p.2)
    let lines :=
      if tasks.length > 10 then
        lines ++ ["...and " ++ toString (tasks.length - 10) ++ " more tasks."]
      else lines
    String.intercalate "\n" lines

/-- `_format_complete_task` (response_formatter.py:147-156). -/
def format_complete_task (result : ToolResult) : String :=
  let title := match result.task with | some t => t.title | none => "Untitled"
  let completed := match result.task with | some t => t.completed | none => false
  if completed then "✓ Marked '" ++ title ++ "' as complete. Great job! 🎉"
  else "○ Unmarked '" ++ title ++ "' as complete."

/-- `_format_delete_task` (response_formatter.py:158-175): batch results are
recognised by the presence of `deleted_count`. -/
def format_delete_task (result : ToolResult) : String :=
  if result.deleted_count.isSome then
    let deleted_count := result.deleted_count.getD 0
    let failed_count := result.failed_count.getD 0
    if deleted_count == 0 then "No completed tasks found to delete. Your task list is clean!"
    else
      let response := "✓ Successfully deleted " ++ toString deleted_count ++ " completed task(s)."
      if failed_count > 0 then
        response ++ " (" ++ toString failed_count ++ " task(s) failed to delete)"
      else response
  else "✓ Task deleted successfully. It's been removed from your list."

/-- `_format_update_task` (response_formatter.py:177-181). -/
def format_update_task (result : ToolResult) : String :=
  let title := match result.task with | some t => t.title | none => "Untitled"
  "✓ Updated task '" ++ title ++ "' successfully."

/-- `_format_error` (response_formatter.py:183-196). -/
def format_error (intent : String) (error : String) : String :=
  if pyIn "not found" (pyLower error) || pyIn "does not belong" (pyLower error) then
    "I couldn't find that task. Try 'show my tasks' to see your task list."
  else if pyIn "required" (pyLower error) || pyIn "cannot be empty" (pyLower error) then
    if intent == "create_task" then "Task title is required. Try: 'add a task to [task name]'."
    else "Missing required information. " ++ error
  else "I ran into an issue: " ++ error ++ ". Please try again or rephrase your request."

/-- `ResponseFormatterAgent.format` (response_formatter.py:34-96). -/
def ResponseFormatterAgent_format (intent : String) (tool_result : ToolResult) : String :=
  if !tool_result.success then
    format_error intent (tool_result.error.getD "An unknown error occurred")
  else if intent == "create_task" then format_create_task tool_result
  else if intent == "list_tasks" then format_list_tasks tool_result
  else if intent == "complete_task" then format_complete_task tool_result
  else if intent == "delete_task" then format_delete_task tool_result
  else if intent == "update_task" then format_update_task tool_result
  else "I processed your request, but I'm not sure how to describe what happened."

/-!
## IntentClassifierAgent (`agents/intent_classifier.py`)

The remote Gemini call is a black box: each attempt's outcome is supplied as
an `Except String String` — the raised exception's `str(e)` or the reply text.
`json.loads` is the external `json` library, supplied as a function returning
the parsed classification dictionary or the `JSONDecodeError`'s `str(e)`.
The returned `Bool` is instrumentation recording whether
`self.fallback_classifier.classify` was invoked.
-/

/-- A parsed classification dictionary (arbitrary JSON keys restricted to the
ones the pipeline ever reads); also the shape `classify` returns. -/
structure ParsedJson where
  intent : Option String := none
  confidence : Option Rat := none
  entities : Option Entities := none
  note : Option String := none
  error : Option String := none
deriving DecidableEq, Repr

/-- Outcome of one `self.model.generate_content(...)` call. -/
abbrev RemoteAttempt := Except String String

inductive PyExcKind where
  | jsonDecodeError
  | otherException
deriving DecidableEq, Repr

/-- An exception reaching the `try`'s handlers: its class and its `str(e)`. -/
structure PyExc where
  kind : PyExcKind
  msg : String
deriving DecidableEq, Repr

/-- Which `except` clauses of `classify`'s `try` (in source order:
`except Exception as api_error` at intent_classifier.py:237,
`except json.JSONDecodeError` at line 264, `except Exception` at line 277)
match an exception of the given class.  `json.JSONDecodeError` is a subclass
of `ValueError`, hence of `Exception`, so clause 0 matches every exception. -/
def clauseMatches : Nat → PyExcKind → Bool
  | 0, _ => true
  | 1, .jsonDecodeError => true
  | 1, _ => false
  | _, _ => true

/-- Python selects the first matching `except` clause in source order; with
clause 0 being `except Exception`, clauses 1 and 2 are unreachable. -/
def firstMatchingClause (k : PyExcKind) : Nat :=
  if clauseMatches 0 k then 0 else if clauseMatches 1 k then 1 else 2

/-- Markdown code-fence stripping (intent_classifier.py:203-207). -/
def pySplitAllAux : Nat → List Char → List Char → List (List Char)
  | 0, _, cs => [cs]
  | fuel + 1, sep, cs =>
    match splitOnce sep cs with
    | some (before, after) => before :: pySplitAllAux fuel sep after
    | none => [cs]

/-- Python `s.split(sep)` for a nonempty separator. -/
def pySplitAll (sep : List Char) (cs : List Char) : List (List Char) :=
  pySplitAllAux (cs.length + 1) sep cs

def stripFences (result_text : String) : String :=
  if pyIn "```json" result_text then
    let part1 := (pySplitAll "```json".toList result_text.toList).getD 1 []
    let part := (pySplitAll "```".toList part1).getD 0 []
    pyStrip (String.mk part)
  else if pyIn "```" result_text then
    let part1 := (pySplitAll "```".toList result_text.toList).getD 1 []
    let part := (pySplitAll "```".toList part1).getD 0 []
    pyStrip (String.mk part)
  else result_text

/-- The transient-failure test (intent_classifier.py:239). -/
def isTransientError (s : String) : Bool :=
  pyIn "ResourceExhausted" s || pyIn "429" s || pyIn "quota" (pyLower s)

/-- The rule-based fallback result as the dictionary `classify` returns
(intent_classifier.py:254, :262). -/
def ruleFallbackJson (L : DateLib) (today : Nat) (message : String) : ParsedJson :=
  let c := RuleBasedClassifier_classify L today message
  { intent := some c.intent, confidence := some c.confidence, entities := some c.entities }

/-- The handler block of `classify`'s `try` (intent_classifier.py:237-288),
dispatching on the first matching clause.  Clause 0 retries once on a
transient error when attempts remain, otherwise falls back to the rule-based
classifier; clauses 1 and 2 are the unreachable dedicated handlers. -/
def classifyHandleExc (L : DateLib) (today : Nat) (message : String) (e : PyExc)
    (isLast : Bool) (retry : Unit → ParsedJson × Bool) : ParsedJson × Bool :=
  match firstMatchingClause e.kind with
  | 0 =>
    if isTransientError e.msg then
      if !isLast then retry ()  -- `time.sleep(0.5)` then `continue`
      else (ruleFallbackJson L today message, true)
    else (ruleFallbackJson L today message, true)
  | 1 =>
    ({ intent := some "unclear", confidence := some 0, entities := some {},
       error := some "Failed to parse classification response" }, false)
  | _ =>
    ({ intent := some "unclear", confidence := some 0, entities := some {},
       error := some e.msg }, false)

/-- `IntentClassifierAgent.classify` (intent_classifier.py:52-288): the
`for attempt in range(max_retries + 1)` loop over the supplied attempt
outcomes (`max_retries = 1`, so callers pass two).  The prompt construction
(lines 88-189, including the conversation history) only shapes the remote
request, which the attempt outcomes abstract.  An exhausted attempt list
models falling off the loop, which the two-attempt loop never does. -/
def IntentClassifierAgent_classify (L : DateLib) (today : Nat) (message : String)
    (history : Option (List MessageRec))
    (jsonLoads : String → Except String ParsedJson) :
    List RemoteAttempt → ParsedJson × Bool
  | [] => (ruleFallbackJson L today message, true)
  | attempt :: restAttempts =>
    let isLast := restAttempts.isEmpty
    match attempt with
    | .error apiErrStr =>
      classifyHandleExc L today message ⟨.otherException, apiErrStr⟩ isLast
        (fun _ => IntentClassifierAgent_classify L today message history jsonLoads restAttempts)
    | .ok text =>
      let cleaned := stripFences text
      match jsonLoads cleaned with
      | .ok result => (result, false)
      | .error emsg =>
        classifyHandleExc L today message ⟨.jsonDecodeError, emsg⟩ isLast
          (fun _ => IntentClassifierAgent_classify L today message history jsonLoads restAttempts)

/-!
## ConversationOrchestrator (`services/chatbot_service.py`)

`process_message` is composed with the classifier's *result* as an input (the
remote call is external); the trace records, as ghost data, the
`conversation_history` argument passed to `classify`, and how often
`resolve` (anywhere) and `ActionAgent.execute` ran.
-/

structure OrchResult where
  response : String
  conversation_id : String
  intent : String
  success : Bool
  needs_confirmation : Option Bool := none
deriving DecidableEq, Repr

structure OrchTrace where
  classifierHistoryArg : Option (Option (List MessageRec)) := none
  resolverCalls : Nat := 0
  executorCalls : Nat := 0
deriving DecidableEq, Repr

/-- The conversation-row predicate of `_get_or_create_conversation`
(chatbot_service.py:222-226). -/
def convRowPred (cid : Nat) (u : UserId) (c : Conversation) : Bool :=
  c.id == cid && c.user_id == u && c.deleted_at.isNone

/-- Creation of a fresh conversation (chatbot_service.py:242-253). -/
def createNewConversation (db : DB) (u : UserId) : Conversation × DB :=
  let conv : Conversation :=
    { id := db.nextConvId, user_id := u, created_at := db.now,
      updated_at := db.now, deleted_at := none }
  (conv, { db with conversations := db.conversations ++ [conv],
                   nextConvId := db.nextConvId + 1 })

/-- `_get_or_create_conversation` (chatbot_service.py:211-253). -/
def get_or_create_conversation (db : DB) (u : UserId) (conversation_id : Option Nat) :
    Conversation × DB :=
  match conversation_id with
  | some cid =>
    match db.conversations.find? (convRowPred cid u) with
    | some conv =>
      let conv' := { conv with updated_at := db.now }
      let convs := updateFirst (convRowPred cid u) (fun _ => conv') db.conversations
      (conv', { db with conversations := convs })
    | none => createNewConversation db u
  | none => createNewConversation db u

/-- `_save_messages` (chatbot_service.py:255-298): append the user then the
assistant message in one transaction and bump the conversation's
`updated_at`. -/
def save_messages (db : DB) (conversation : Conversation) (u : UserId)
    (user_message assistant_response : String) : DB :=
  let user_msg : MessageRec :=
    { id := db.nextMsgId, conversation_id := conversation.id, user_id := u,
      role := .user, content := user_message, created_at := db.now, deleted_at := none }
  let assistant_msg : MessageRec :=
    { id := db.nextMsgId + 1, conversation_id := conversation.id, user_id := u,
      role := .assistant, content := assistant_response, created_at := db.now,
      deleted_at := none }
  { db with
    messages := db.messages ++ [user_msg, assistant_msg],
    nextMsgId := db.nextMsgId + 2,
    conversations := updateFirst (fun c => c.id == conversation.id)
      (fun c => { c with updated_at := db.now }) db.conversations }

/-- `_handle_low_confidence` (chatbot_service.py:300-309); the message
argument is unused in the source too. -/
def handle_low_confidence (_message : String) : String :=
  "I'm not sure what you want to do. Here are some things you can try:\n"
    ++ "- 'add a task to [task name]' - Create a new task\n"
    ++ "- 'show my tasks' - View all your tasks\n"
    ++ "- 'mark task [number] as done' - Complete a task\n"
    ++ "- 'delete task [number]' - Remove a task\n"
    ++ "\nPlease rephrase your request."

/-- `_format_confirmation_request` (chatbot_service.py:311-322): at most five
candidates listed. -/
def format_confirmation_request (ms : List MatchEntry) : String :=
  let response_lines := ["I found multiple tasks matching your request. Which one did you mean?"]
  let response_lines := response_lines ++ ((ms.take 5).enum.map fun p =>
    toString (p.1 + 1) ++ ". " ++ p.2.title ++ " (ID: " ++ toString p.2.id ++ ")")
  let response_lines := response_lines
    ++ ["\nPlease specify the task ID (e.g., 'mark task 5 as done')."]
  String.intercalate "\n" response_lines

/-- `ChatbotService.process_message` (chatbot_service.py:53-209), with the
classifier's returned dictionary supplied as `classification`.  Step 2 calls
`self.intent_agent.classify(message, user_id, correlation_id)`
(chatbot_service.py:110): the `conversation_history` parameter takes its
default `None`, recorded in the trace as `some none`. -/
def ChatbotService_process_message (L : DateLib) (db : DB) (user_id : UserId)
    (message : String) (conversation_id : Option Nat) (classification : ParsedJson) :
    OrchResult × DB × OrchTrace :=
  let (conversation, db1) := get_or_create_conversation db user_id conversation_id
  let trace0 : OrchTrace := { classifierHistoryArg := some none }
  let intent := classification.intent.getD "unclear"
  let confidence := classification.confidence.getD 0
  let entities := classification.entities.getD {}
  if confidence < mkRat 7 10 then
    let response_text := handle_low_confidence message
    let db2 := save_messages db1 conversation user_id message response_text
    ({ response := response_text, conversation_id := toString conversation.id,
       intent := "unclear", success := false }, db2, trace0)
  else
    let resolveStep : Except (OrchResult × DB × OrchTrace) (Entities × Nat) :=
      if (intent == "complete_task" || intent == "delete_task" || intent == "update_task")
          && entities.task_id.isNone then
        let resolution := TaskResolutionAgent_resolve db1 user_id entities
        if resolution.confirmation_needed then
          let response_text := format_confirmation_request resolution.matchList
          let db2 := save_messages db1 conversation user_id message response_text
          .error ({ response := response_text, conversation_id := toString conversation.id,
                    intent := intent, success := false, needs_confirmation := some true },
                  db2, { trace0 with resolverCalls := 1 })
        else if !resolution.task_ids.isEmpty then
          .ok ({ entities with task_id := some (resolution.task_ids.headD 0) }, 1)
        else if pyTruthyStr resolution.error then
          let response_text := resolution.error.getD ""
          let db2 := save_messages db1 conversation user_id message response_text
          .error ({ response := response_text, conversation_id := toString conversation.id,
                    intent := intent, success := false }, db2,
                  { trace0 with resolverCalls := 1 })
        else .ok (entities, 1)
      else .ok (entities, 0)
    match resolveStep with
    | .error r => r
    | .ok (entities, rc) =>
      let (tool_result, db2, rcExec) := ActionAgent_execute L db1 intent entities user_id
      let response_text := ResponseFormatterAgent_format intent tool_result
      let db3 := save_messages db2 conversation user_id message response_text
      ({ response := response_text, conversation_id := toString conversation.id,
         intent := intent, success := tool_result.success }, db3,
       { trace0 with resolverCalls := rc + rcExec, executorCalls := 1 })

/-!
## Concrete fixtures for closed statements
-/

def taskBuyMilk : TaskRec :=
  { id := 1, user_id := 7, title := "buy milk", description := "",
    completed := false, priority := .medium, due_date := none, tags := none,
    recurrence_rule := none, created_at := 10, updated_at := 10, deleted_at := none }

def taskReportA : TaskRec :=
  { taskBuyMilk with id := 2, title := "report a", created_at := 11, updated_at := 11 }

def taskReportB : TaskRec :=
  { taskBuyMilk with id := 3, title := "report b", created_at := 12, updated_at := 12 }

def taskOldDone : TaskRec :=
  { taskBuyMilk with id := 4, title := "old done", completed := true, created_at := 13 }

/-- Four tasks of user 7: three pending, one completed. -/
def dbFixture : DB :=
  { tasks := [taskBuyMilk, taskReportA, taskReportB, taskOldDone],
    conversations := [], messages := [],
    nextTaskId := 5, nextConvId := 1, nextMsgId := 1, now := 100 }

/-- A store with no tasks at all (in particular zero completed tasks). -/
def dbEmpty : DB :=
  { tasks := [], conversations := [], messages := [],
    nextTaskId := 1, nextConvId := 1, nextMsgId := 1, now := 100 }

/-- One pending task of user 7; no title contains an ordinal word. -/
def dbOneTask : DB :=
  { tasks := [taskBuyMilk], conversations := [], messages := [],
    nextTaskId := 2, nextConvId := 1, nextMsgId := 1, now := 100 }

/-!
## Theorems for the claims
-/

/-- C8: for the six numeric-id phrasings "task 5", "id 20", "task id20",
"#42", "id20", "task3", the ordered id-extraction regexes of
`_extract_task_reference` (first matching pattern wins) extract exactly the
integers 5, 20, 20, 42, 20 and 3 as `entities.task_id` (and nothing else). -/
theorem C8_id_extraction_six_phrasings :
    extract_task_reference "task 5" = { task_id := some 5 } ∧
    extract_task_reference "id 20" = { task_id := some 20 } ∧
    extract_task_reference "task id20" = { task_id := some 20 } ∧
    extract_task_reference "#42" = { task_id := some 42 } ∧
    extract_task_reference "id20" = { task_id := some 20 } ∧
    extract_task_reference "task3" = { task_id := some 3 } := by
  refine ⟨?_, ?_, ?_, ?_, ?_, ?_⟩ <;> decide

/-- C6 (counterexample): "trash completed tasks" contains the delete keyword
`trash`, the completion keyword `completed` and the word `task`, yet
`RuleBasedClassifier.classify` extracts `{task_reference: "d tasks"}` — not
`{batch_delete: true, filter_completed: true}` — because the batch branch of
`_extract_task_reference` tests only for the literals `delete`/`remove`. -/
theorem C6_trash_completed_tasks_not_batch :
    pyIn "trash" "trash completed tasks" = true ∧
    pyIn "completed" "trash completed tasks" = true ∧
    pyIn "task" "trash completed tasks" = true ∧
    RuleBasedClassifier_classify dateLib0 0 "trash completed tasks" =
      ⟨"delete_task", mkRat 9 10, { task_reference := some "d tasks" }⟩ := by
  refine ⟨by decide, by decide, by decide, by decide⟩

/-- C6 (amended): for every message whose lowered, stripped text contains
`delete` or `remove`, a completion keyword, and the word `task`, and contains
none of the list keywords `show`/`list`/`view`/`display`,
`RuleBasedClassifier.classify` returns `delete_task` with confidence 0.9 and
entities exactly `{batch_delete: true, filter_completed: true}`. -/
theorem C6_delete_completed_is_batch_delete (L : DateLib) (today : Nat)
    (message : String)
    (hdel : pyIn "delete" (pyStrip (pyLower message)) = true ∨ pyIn "remove" (pyStrip (pyLower message)) = true)
    (hcomp : pyIn "completed" (pyStrip (pyLower message)) = true
      ∨ pyIn "done" (pyStrip (pyLower message)) = true
      ∨ pyIn "finished" (pyStrip (pyLower message)) = true)
    (htask : pyIn "task" (pyStrip (pyLower message)) = true)
    (hshow : pyIn "show" (pyStrip (pyLower message)) = false)
    (hlist : pyIn "list" (pyStrip (pyLower message)) = false)
    (hview : pyIn "view" (pyStrip (pyLower message)) = false)
    (hdisp : pyIn "display" (pyStrip (pyLower message)) = false) :
    RuleBasedClassifier_classify L today message =
      ⟨"delete_task", mkRat 9 10, { batch_delete := some true, filter_completed := some true }⟩ := by
  rcases hdel with h1 | h1 <;> rcases hcomp with h2 | h2 | h2 <;>
    simp [RuleBasedClassifier_classify, is_list_tasks, is_delete_task,
          extract_task_reference, h1, h2, htask, hshow, hlist, hview, hdisp]

/-- C6 (witness): the amended theorem applied to "delete completed tasks". -/
theorem C6_delete_completed_is_batch_delete_witness :
    RuleBasedClassifier_classify dateLib0 0 "delete completed tasks" =
      ⟨"delete_task", mkRat 9 10, { batch_delete := some true, filter_completed := some true }⟩ :=
  C6_delete_completed_is_batch_delete dateLib0 0 "delete completed tasks"
    (Or.inl (by decide)) (Or.inl (by decide)) (by decide)
    (by decide) (by decide) (by decide) (by decide)

/-- C9: on "add task 12" — a create-intent message all of whose template
captures are the purely numeric "12" — `classify` emits `title: "12"` anyway:
the loop keeps the last matched capture in `title_text` even when it failed
the length/digit acceptance test, and the cleanup then stores it. -/
theorem C9_add_task_12_extracts_numeric_title (L : DateLib) (today : Nat) :
    RuleBasedClassifier_classify L today "add task 12" =
      ⟨"create_task", mkRat 9 10, { title := some "12" }⟩ := by
  rfl

/-- C5: ordinal references never reach the positional branch.  With a single
pending task "buy milk" and `task_reference = "first"`, `resolve` enters the
free-text case (which always returns), fails the substring match, and returns
the no-match error instead of the first pending task. -/
theorem C5_ordinal_first_returns_no_match_error :
    TaskResolutionAgent_resolve dbOneTask 7 { task_reference := some "first" } =
      { task_ids := [], confirmation_needed := false, matchList := [],
        error := some "No tasks found matching 'first'" } := by
  decide

/-- `json.loads` failing on a non-JSON reply: the library's
`JSONDecodeError` message. -/
def jsonLoadsFailC2 : String → Except String ParsedJson :=
  fun _ => .error "Expecting value: line 1 column 1 (char 0)"

/-- C2: a remote reply that is not parseable JSON does NOT yield
`unclear`/0/error — the `JSONDecodeError` is caught by the first
`except Exception` clause, whose non-transient path invokes the
RuleBasedClassifier fallback (second component `true`): for "show my tasks"
the result is the rule-based `list_tasks`/0.95 with no error field. -/
theorem C2_malformed_json_uses_rule_fallback :
    IntentClassifierAgent_classify dateLib0 0 "show my tasks" none jsonLoadsFailC2
        [.ok "this is not valid json", .ok "unused second attempt"] =
      ({ intent := some "list_tasks", confidence := some (mkRat 95 100), entities := some {} }, true) := by
  decide

/-- The batch-delete call site's offending keyword is `completed`. -/
theorem unexpectedKwarg_eq : unexpectedKwarg = some "completed" := by decide

/-- C1: batch delete never succeeds — for every store and user, parameters
with truthy `batch_delete` and `filter_completed` make `execute` return the
`TypeError` failure from the `list_tasks(completed=True)` call, with the store
untouched; in particular it never returns `success=true` with any
`deleted_count`. -/
theorem C1_batch_delete_raises_TypeError (L : DateLib) (db : DB) (params : Entities)
    (u : UserId) (hb : pyTruthyBool params.batch_delete = true)
    (hf : pyTruthyBool params.filter_completed = true) :
    ActionAgent_execute L db "delete_task" params u =
      ({ success := false,
         error := some "Failed to execute action: list_tasks() got an unexpected keyword argument 'completed'" },
       db, 0) := by
  unfold ActionAgent_execute execute_delete_task
  rw [hb, hf]
  rfl

def batchParams : Entities := { batch_delete := some true, filter_completed := some true }

/-- C1 (witness): a user with zero completed tasks — where the claim expects
`success=true, deleted_count=0` — receives the `TypeError` failure. -/
theorem C1_batch_delete_raises_TypeError_witness :
    pyTruthyBool batchParams.batch_delete = true ∧
    pyTruthyBool batchParams.filter_completed = true ∧
    ActionAgent_execute dateLib0 dbEmpty "delete_task" batchParams 7 =
      ({ success := false,
         error := some "Failed to execute action: list_tasks() got an unexpected keyword argument 'completed'" },
       dbEmpty, 0) :=
  ⟨by decide, by decide,
   C1_batch_delete_raises_TypeError dateLib0 dbEmpty batchParams 7 (by decide) (by decide)⟩

/-- C7 (counterexample): with two tasks "report a"/"report b" both matching the
reference "report", an update request without `task_id` is NOT delegated to the
TaskResolver (resolve-call count 0) and fails with "Task ID is required to
update" — even though a resolution would have needed confirmation. -/
theorem C7_update_does_not_delegate :
    (ActionAgent_execute dateLib0 dbFixture "update_task" { task_reference := some "report" } 7).1 =
      { success := false, error := some "Task ID is required to update" } ∧
    (ActionAgent_execute dateLib0 dbFixture "update_task" { task_reference := some "report" } 7).2.2 = 0 ∧
    (TaskResolutionAgent_resolve dbFixture 7 { task_reference := some "report" }).confirmation_needed
      = true := by
  refine ⟨by decide, by decide, by decide⟩

/-- C7 (amended): for single delete and complete requests whose parameters
lack a `task_id` but hold a truthy `task_reference` (and, for delete, are not
a batch request), the executor delegates to TaskResolver, and a resolution
needing confirmation becomes a failure whose error enumerates the candidate
titles and ids; an update request is NOT delegated — it fails demanding a
task id with the resolver never invoked. -/
theorem C7_delete_complete_delegate_update_does_not (L : DateLib) (db : DB)
    (params : Entities) (u : UserId)
    (hid : params.task_id = none)
    (href : pyTruthyStr params.task_reference = true)
    (hnb : (pyTruthyBool params.batch_delete && pyTruthyBool params.filter_completed) = false)
    (hcn : (TaskResolutionAgent_resolve db u params).confirmation_needed = true)
    (herr : (TaskResolutionAgent_resolve db u params).error = none) :
    (ActionAgent_execute L db "delete_task" params u =
       ({ success := false,
          error := some ("Multiple tasks found. Please specify which one:\n"
            ++ enumerateMatches (TaskResolutionAgent_resolve db u params).matchList) }, db, 1)) ∧
    (ActionAgent_execute L db "complete_task" params u =
       ({ success := false,
          error := some ("Multiple tasks found. Please specify which one:\n"
            ++ enumerateMatches (TaskResolutionAgent_resolve db u params).matchList) }, db, 1)) ∧
    ActionAgent_execute L db "update_task" params u =
      ({ success := false, error := some "Task ID is required to update" }, db, 0) := by
  have hti : pyTruthyInt params.task_id = false := by rw [hid]; rfl
  have h0 : pyTruthyStr (none : Option String) = false := rfl
  refine ⟨?_, ?_, ?_⟩
  · simp [ActionAgent_execute, execute_delete_task, hnb, hti, href, hcn, herr, h0]
  · simp [ActionAgent_execute, execute_complete_task, hti, href, hcn, herr, h0]
  · simp [ActionAgent_execute, execute_update_task, hti]

def refReportParams : Entities := { task_reference := some "report" }

/-- C7 (witness): the amended theorem at the two-"report"-tasks store. -/
theorem C7_delete_complete_delegate_update_does_not_witness :
    (ActionAgent_execute dateLib0 dbFixture "delete_task" refReportParams 7 =
       ({ success := false,
          error := some ("Multiple tasks found. Please specify which one:\n"
            ++ enumerateMatches (TaskResolutionAgent_resolve dbFixture 7 refReportParams).matchList) },
        dbFixture, 1)) ∧
    (ActionAgent_execute dateLib0 dbFixture "complete_task" refReportParams 7 =
       ({ success := false,
          error := some ("Multiple tasks found. Please specify which one:\n"
            ++ enumerateMatches (TaskResolutionAgent_resolve dbFixture 7 refReportParams).matchList) },
        dbFixture, 1)) ∧
    ActionAgent_execute dateLib0 dbFixture "update_task" refReportParams 7 =
      ({ success := false, error := some "Task ID is required to update" }, dbFixture, 0) :=
  C7_delete_complete_delegate_update_does_not dateLib0 dbFixture refReportParams 7
    rfl (by decide) (by decide) (by decide) (by decide)

/-- A found row survives an in-place update whose result still satisfies the
row predicate: `find?` then yields the updated row. -/
theorem find?_updateFirst {α : Type} (p : α → Bool) (f : α → α) (l : List α) (x : α)
    (h : l.find? p = some x) (hf : p (f x) = true) :
    (updateFirst p f l).find? p = some (f x) := by
  induction l with
  | nil => simp at h
  | cons a l ih =>
    by_cases hpa : p a = true
    · rw [List.find?_cons_of_pos _ hpa] at h
      obtain rfl : a = x := by simpa using h
      unfold updateFirst
      rw [if_pos hpa]
      exact List.find?_cons_of_pos _ hf
    · rw [List.find?_cons_of_neg _ (by simpa using hpa)] at h
      unfold updateFirst
      rw [if_neg hpa]
      rw [List.find?_cons_of_neg _ (by simpa using hpa)]
      exact ih h

/-- `find?` is unaffected by rows appended after a hit. -/
theorem find?_append_some {α : Type} (p : α → Bool) (l₁ l₂ : List α) (x : α)
    (h : l₁.find? p = some x) : (l₁ ++ l₂).find? p = some x := by
  induction l₁ with
  | nil => simp at h
  | cons a l ih =>
    by_cases hpa : p a = true
    · rw [List.find?_cons_of_pos _ hpa] at h
      simpa [List.find?_cons_of_pos _ hpa] using h
    · rw [List.find?_cons_of_neg _ (by simpa using hpa)] at h
      rw [List.cons_append, List.find?_cons_of_neg _ (by simpa using hpa)]
      exact ih h

/-- Creating a next occurrence only appends a row, so an earlier `find?` hit
is preserved. -/
theorem create_next_occurrence_preserves_find (L : DateLib) (db1 : DB) (ct : TaskRec)
    (p : TaskRec → Bool) (x : TaskRec) (h : db1.tasks.find? p = some x) :
    ((create_next_occurrence L db1 ct).2).tasks.find? p = some x := by
  rcases hd : ct.due_date with _ | d
  · simp [create_next_occurrence, hd, h]
  · rcases hr : ct.recurrence_rule with _ | r
    · simp [create_next_occurrence, hd, hr, h]
    · simp only [create_next_occurrence, hd, hr]
      exact find?_append_some _ _ _ _ h

/-- `toggle_completion` on a found row: the returned row is the flip with a
bumped `updated_at`, and the resulting store still finds exactly that row. -/
theorem toggle_completion_spec (L : DateLib) (db : DB) (tid : Int) (u : UserId)
    (t : TaskRec) (hfind : get_task_by_id db tid u = some t) :
    ∃ db', toggle_completion L db tid u =
        (some { t with completed := !t.completed, updated_at := db.now }, db') ∧
      get_task_by_id db' tid u =
        some { t with completed := !t.completed, updated_at := db.now } := by
  have hpt : taskRowPred tid u t = true := List.find?_some hfind
  have hpt' : taskRowPred tid u { t with completed := !t.completed, updated_at := db.now } = true := by
    simpa [taskRowPred] using hpt
  have hfind1 :
      (updateFirst (taskRowPred tid u)
          (fun _ => { t with completed := !t.completed, updated_at := db.now }) db.tasks).find?
        (taskRowPred tid u) =
        some { t with completed := !t.completed, updated_at := db.now } := by
    have := find?_updateFirst (taskRowPred tid u)
      (fun _ => { t with completed := !t.completed, updated_at := db.now }) db.tasks t hfind hpt'
    simpa using this
  simp only [toggle_completion, hfind]
  by_cases hb : ((!t.completed) &&
      (match t.recurrence_rule with
       | some r => r.frequency.isSome
       | none => false)) = true
  · rw [if_pos hb]
    refine ⟨_, rfl, ?_⟩
    show (_ : DB).tasks.find? (taskRowPred tid u) = _
    exact create_next_occurrence_preserves_find _ _ _ _ _ hfind1
  · rw [if_neg hb]
    refine ⟨_, rfl, ?_⟩
    show (_ : DB).tasks.find? (taskRowPred tid u) = _
    exact hfind1

/-- C10: for every existing task of the calling user, the complete_task MCP
tool with target state `completed` succeeds and returns a snapshot whose
`completed` field equals the requested target, regardless of the prior state —
when the first toggle lands in the opposite state a second toggle is issued. -/
theorem C10_complete_task_reaches_target (L : DateLib) (db : DB) (u : UserId)
    (tid : Int) (target : Bool) (t : TaskRec)
    (hfind : get_task_by_id db tid u = some t) :
    (mcp_complete_task L db u tid target).1.success = true ∧
    (mcp_complete_task L db u tid target).1.task.map TaskSnapshot.completed = some target := by
  obtain ⟨db1, htog1, hfind1⟩ := toggle_completion_spec L db tid u t hfind
  obtain ⟨db2, htog2, hfind2⟩ := toggle_completion_spec L db1 tid u _ hfind1
  simp only [mcp_complete_task, htog1]
  by_cases hneq : ((!t.completed) != target) = true
  · rw [if_pos hneq]
    have htgt : t.completed = target := by
      revert hneq; cases t.completed <;> cases target <;> decide
    simp [htog2, snapshotOf, htgt]
  · rw [if_neg hneq]
    have htgt : t.completed = !target := by
      revert hneq; cases t.completed <;> cases target <;> decide
    simp [snapshotOf, htgt]

/-- C10 (witness): completing the already-completed task 4 with target `true`
still succeeds with a completed snapshot (via the double toggle). -/
theorem C10_complete_task_reaches_target_witness :
    get_task_by_id dbFixture 4 7 = some taskOldDone ∧
    (mcp_complete_task dateLib0 dbFixture 7 4 true).1.success = true ∧
    (mcp_complete_task dateLib0 dbFixture 7 4 true).1.task.map TaskSnapshot.completed = some true :=
  ⟨by decide,
   (C10_complete_task_reaches_target dateLib0 dbFixture 7 4 true taskOldDone (by decide)).1,
   (C10_complete_task_reaches_target dateLib0 dbFixture 7 4 true taskOldDone (by decide)).2⟩

/-- Conversation resolution touches only the conversations table: messages,
the message id counter and the clock are unchanged. -/
theorem get_or_create_preserves (db : DB) (u : UserId) (cid : Option Nat) :
    (get_or_create_conversation db u cid).2.messages = db.messages ∧
    (get_or_create_conversation db u cid).2.nextMsgId = db.nextMsgId ∧
    (get_or_create_conversation db u cid).2.now = db.now := by
  rcases cid with _ | c
  · simp [get_or_create_conversation, createNewConversation]
  · rcases h : db.conversations.find? (convRowPred c u) with _ | conv <;>
      simp [get_or_create_conversation, createNewConversation, h]

/-- C3: whenever the classifier's confidence is strictly below 0.7,
`process_message` never invokes the TaskResolver or the ActionExecutor,
returns `success=false` with intent `unclear` and the canned guidance message,
and persists exactly two messages — the user message then the assistant
message — for the turn. -/
theorem C3_low_confidence_short_circuits (L : DateLib) (db : DB) (u : UserId)
    (message : String) (conversation_id : Option Nat) (classification : ParsedJson)
    (hconf : classification.confidence.getD 0 < mkRat 7 10) :
    (ChatbotService_process_message L db u message conversation_id classification).2.2.resolverCalls = 0 ∧
    (ChatbotService_process_message L db u message conversation_id classification).2.2.executorCalls = 0 ∧
    (ChatbotService_process_message L db u message conversation_id classification).1.success = false ∧
    (ChatbotService_process_message L db u message conversation_id classification).1.intent = "unclear" ∧
    (ChatbotService_process_message L db u message conversation_id classification).1.response
      = handle_low_confidence message ∧
    ∃ convId : Nat,
      (ChatbotService_process_message L db u message conversation_id classification).2.1.messages =
        db.messages ++
          [ { id := db.nextMsgId, conversation_id := convId, user_id := u, role := .user,
              content := message, created_at := db.now, deleted_at := none },
            { id := db.nextMsgId + 1, conversation_id := convId, user_id := u, role := .assistant,
              content := handle_low_confidence message, created_at := db.now, deleted_at := none } ] := by
  obtain ⟨hm, hid, hnow⟩ := get_or_create_preserves db u conversation_id
  rcases hg : get_or_create_conversation db u conversation_id with ⟨conv, db1⟩
  simp only [hg] at hm hid hnow
  simp only [ChatbotService_process_message, hg]
  rw [if_pos hconf]
  refine ⟨rfl, rfl, rfl, rfl, rfl, ⟨conv.id, ?_⟩⟩
  simp [save_messages, hm, hid, hnow]

def lowConfClassification : ParsedJson :=
  { intent := some "unclear", confidence := some (mkRat 2 10), entities := some {} }

/-- C3 (witness): the short-circuit at a concrete store and a confidence-0.2
classification. -/
theorem C3_low_confidence_short_circuits_witness :
    (ChatbotService_process_message dateLib0 dbFixture 7 "blah" none lowConfClassification).2.2.resolverCalls = 0 ∧
    (ChatbotService_process_message dateLib0 dbFixture 7 "blah" none lowConfClassification).2.2.executorCalls = 0 ∧
    (ChatbotService_process_message dateLib0 dbFixture 7 "blah" none lowConfClassification).1.success = false ∧
    (ChatbotService_process_message dateLib0 dbFixture 7 "blah" none lowConfClassification).1.intent = "unclear" ∧
    (ChatbotService_process_message dateLib0 dbFixture 7 "blah" none lowConfClassification).1.response
      = handle_low_confidence "blah" ∧
    ∃ convId : Nat,
      (ChatbotService_process_message dateLib0 dbFixture 7 "blah" none lowConfClassification).2.1.messages =
        dbFixture.messages ++
          [ { id := dbFixture.nextMsgId, conversation_id := convId, user_id := 7, role := .user,
              content := "blah", created_at := dbFixture.now, deleted_at := none },
            { id := dbFixture.nextMsgId + 1, conversation_id := convId, user_id := 7, role := .assistant,
              content := handle_low_confidence "blah", created_at := dbFixture.now, deleted_at := none } ] :=
  C3_low_confidence_short_circuits dateLib0 dbFixture 7 "blah" none lowConfClassification (by decide)

def convWithHistory : Conversation :=
  { id := 1, user_id := 7, created_at := 5, updated_at := 6, deleted_at := none }

/-- A store whose conversation 1 already holds a user/assistant exchange. -/
def dbWithHistory : DB :=
  { tasks := [taskBuyMilk, taskReportA, taskReportB, taskOldDone],
    conversations := [convWithHistory],
    messages :=
      [ { id := 1, conversation_id := 1, user_id := 7, role := .user,
          content := "hi", created_at := 5, deleted_at := none },
        { id := 2, conversation_id := 1, user_id := 7, role := .assistant,
          content := "hello", created_at := 5, deleted_at := none } ],
    nextTaskId := 5, nextConvId := 2, nextMsgId := 3, now := 100 }

/-- C4 (counterexample): a turn on a conversation that already has two prior
messages still invokes the classifier with `conversation_history = None`
(the call at chatbot_service.py:110 passes only message, user id and
correlation id), so the classifier receives no history at all. -/
theorem C4_history_not_passed_despite_prior_messages :
    (dbWithHistory.messages.filter (fun m => m.conversation_id == 1)).length = 2 ∧
    (ChatbotService_process_message dateLib0 dbWithHistory 7 "delete task 3" (some 1)
        { intent := some "delete_task", confidence := some (mkRat 98 100),
          entities := some { task_id := some 3 } }).2.2.classifierHistoryArg = some none := by
  refine ⟨by decide, by decide⟩

/-- C4 (amended): on every turn the orchestrator invokes the IntentClassifier
with no conversation-history context — the history argument is always `None`,
whatever the loaded conversation holds.  (The classifier itself would truncate
a provided history to its last 10 messages, but is never given one.) -/
theorem C4_classifier_always_called_without_history (L : DateLib) (db : DB) (u : UserId)
    (message : String) (conversation_id : Option Nat) (classification : ParsedJson) :
    (ChatbotService_process_message L db u message conversation_id classification).2.2.classifierHistoryArg
      = some none := by
  rcases hg : get_or_create_conversation db u conversation_id with ⟨conv, db1⟩
  simp only [ChatbotService_process_message, hg]
  split
  · rfl
  · rcases hA : ActionAgent_execute L db1 (classification.intent.getD "unclear")
      ((classification.entities.getD {})) u with ⟨tr, db2, rcE⟩
    split
    · rename_i r h
      repeat' split at h
      all_goals first
        | (injection h with h; subst h; rfl)
        | cases h
    · rename_i ents rc h
      rcases hA2 : ActionAgent_execute L db1 (classification.intent.getD "unclear") ents u
        with ⟨tr2, db22, rcE2⟩
      simp [hA2]
